import Mathlib

/-!
Verification development for the insurance-intake-checker repository.

The repository carries two variants of the carrier-evaluation core:
  * `src/server/carrierAnalysis.ts` — a rule-table variant (`CARRIER_RULES`,
    `evaluateCarrier`, `normalizeDataForRules`, `buildChecklist`,
    `generateCarrierAnalysisText`), embedded below in namespace `Simple`;
  * `src/unnamed/part_001` — six hand-written per-carrier guideline evaluators
    with three-valued status and citation strings, embedded in namespace `Rich`.

JavaScript numbers are modelled as follows.  The numeric form values in
play (ages, years, whole-dollar amounts) are integers, so a possibly-NaN
number is `JNum := Option ℤ` (`none` = NaN); every relational comparison
against NaN is `false`, as in JS.  A raw form value (simple variant) is `RawVal`:
`undef`, `null`, a number, NaN, or a string `str s v` carrying the string `s`
together with `v`, its JS `ToNumber` value (`none` when the string does not
parse as a number).  The pair is kept abstract instead of re-implementing
the JS string-to-number grammar; `toNum` forces the faithful special case
`Number("") = 0` regardless of `v`.  String interpolation of raw values
follows JS template-literal semantics (`undefined`, `null`, `NaN`).
-/

/-- A JS number that may be NaN: `none` models NaN. -/
abbrev JNum := Option ℤ

/-- JS `a > k` for a possibly-NaN `a` and a real constant `k`: NaN compares false. -/
def jgt (a : JNum) (k : ℤ) : Bool :=
  match a with
  | some q => decide (q > k)
  | none => false

/-- JS `a < k`: NaN compares false. -/
def jlt (a : JNum) (k : ℤ) : Bool :=
  match a with
  | some q => decide (q < k)
  | none => false

/-- JS `a <= k`: NaN compares false. -/
def jle (a : JNum) (k : ℤ) : Bool :=
  match a with
  | some q => decide (q ≤ k)
  | none => false

/-- JS `a >= k`: NaN compares false. -/
def jge (a : JNum) (k : ℤ) : Bool :=
  match a with
  | some q => decide (q ≥ k)
  | none => false

/-- JS `a > b` on two possibly-NaN numbers. -/
def jgtJ (a b : JNum) : Bool :=
  match a, b with
  | some x, some y => decide (x > y)
  | _, _ => false

/-- JS multiplication of a possibly-NaN number by a constant: NaN propagates. -/
def jmul (a : JNum) (k : ℤ) : JNum := a.map (· * k)

/-- JS number-to-string conversion on the integer domain (exact: JS prints
integral doubles without a decimal point). -/
def jstrQ (q : ℤ) : String :=
  toString q

/-- JS template-literal rendering of a possibly-NaN number. -/
def jstr (n : JNum) : String :=
  match n with
  | none => "NaN"
  | some q => jstrQ q

/-- List-of-chars version of `String.isPrefixOf`. -/
def listPrefixOf : List Char → List Char → Bool
  | [], _ => true
  | _ :: _, [] => false
  | a :: as, b :: bs => a == b && listPrefixOf as bs

/-- Does `pat` occur as a contiguous run inside `l`? -/
def listContains (pat : List Char) : List Char → Bool
  | [] => listPrefixOf pat []
  | b :: bs => listPrefixOf pat (b :: bs) || listContains pat bs

/-- Substring test: does `s` contain `pat`? -/
def strContains (s pat : String) : Bool :=
  listContains pat.data s.data

/-- Digit-grouping helper: inserts a comma after every three chars of a
reversed digit list. -/
def commasRev : List Char → List Char
  | a :: b :: c :: rest =>
    match rest with
    | [] => [a, b, c]
    | _ :: _ => a :: b :: c :: ',' :: commasRev rest
  | l => l

/-- Decimal digits of a natural number grouped with thousands separators. -/
def groupNat (n : ℕ) : String :=
  String.mk (commasRev (toString n).data.reverse).reverse

/-- USD formatting as produced by the repository's `fmtUSD` helpers
(`Intl.NumberFormat`, `maximumFractionDigits: 0`) on the integer domain,
where its rounding is the identity. -/
def fmtUSDq (q : ℤ) : String :=
  if q < 0 then "-$" ++ groupNat q.natAbs else "$" ++ groupNat q.toNat

/-- USD formatting of a possibly-NaN number (`Intl` renders NaN as `$NaN`). -/
def fmtUSDopt (v : JNum) : String :=
  match v with
  | none => "$NaN"
  | some q => fmtUSDq q

/-- Embeds `fmtUSD` of `src/unnamed/part_001`: `Number(n || 0)` maps NaN to 0 first. -/
def fmtUSDj (n : JNum) : String :=
  fmtUSDq (n.getD 0)

namespace Simple

/-- A raw JS form value as consumed by `evaluateCarrier` in
`src/server/carrierAnalysis.ts`.  `str s v` carries the string and its
JS `ToNumber` value (`none` = NaN); `toNum` overrides `v` for `""`. -/
inductive RawVal where
  | undef
  | null
  | nan
  | num (q : ℤ)
  | str (s : String) (v : Option ℤ)
deriving DecidableEq

/-- JS truthiness of a raw value. -/
def truthy : RawVal → Bool
  | .undef => false
  | .null => false
  | .nan => false
  | .num q => decide (q ≠ 0)
  | .str s _ => decide (s ≠ "")

/-- JS `ToNumber` of a raw value (`none` = NaN); `Number("") = 0`. -/
def toNum : RawVal → Option ℤ
  | .undef => none
  | .null => some 0
  | .nan => none
  | .num q => some q
  | .str s v => if s = "" then some 0 else v

/-- JS template-literal rendering of a raw value. -/
def interp : RawVal → String
  | .undef => "undefined"
  | .null => "null"
  | .nan => "NaN"
  | .num q => jstrQ q
  | .str s _ => s

/-- JS strict `v !== null`. -/
def rawNeNull : RawVal → Bool
  | .null => false
  | _ => true

/-- Embeds `fmtUSD` of `carrierAnalysis.ts` applied to a raw value:
`Number(n || 0)` substitutes 0 for any falsy value. -/
def fmtUSDraw (v : RawVal) : String :=
  fmtUSDopt (if truthy v then toNum v else some 0)

/-- Output of `normalizeDataForRules`: a coerced numeric field is null, NaN,
or a number. -/
inductive NNum where
  | nul
  | nan
  | num (q : ℤ)
deriving DecidableEq

/-- JS strict `v !== null` after coercion. -/
def nNeNull : NNum → Bool
  | .nul => false
  | _ => true

/-- JS `v <= k` after coercion: null and NaN compare false. -/
def nle (n : NNum) (k : ℤ) : Bool :=
  match n with
  | .num q => decide (q ≤ k)
  | _ => false

/-- JS `v < k` after coercion. -/
def nlt (n : NNum) (k : ℤ) : Bool :=
  match n with
  | .num q => decide (q < k)
  | _ => false

/-- JS `v > k` after coercion. -/
def ngt (n : NNum) (k : ℤ) : Bool :=
  match n with
  | .num q => decide (q > k)
  | _ => false

/-- JS truthiness of a coerced numeric field. -/
def nTruthy : NNum → Bool
  | .num q => decide (q ≠ 0)
  | _ => false

/-- The record produced by `normalizeDataForRules` and consumed by the
per-carrier `declineReasons` predicates. -/
structure NormData where
  age : NNum
  duiYears : NNum
  felonyYears : NNum
  bankruptcyYears : NNum
  cancerHistoryYears : NNum
  heartEventYears : NNum
  bmi : NNum
  insulinDependent : Bool
  uncontrolledDiabetes : Bool
  uncontrolledHypertension : Bool
  hazardousOccupation : Bool
  avocationRisk : Bool
  travelHighRisk : Bool
  copd : Bool

/-- The raw applicant record fed to `evaluateCarrier`.  Numeric-ish form
fields are `RawVal`; free-text and Yes/No fields are `Option String`
(`none` = undefined). -/
structure RawData where
  age : RawVal
  coverage : RawVal
  annualIncome : RawVal
  tobaccoYears : RawVal
  duiYears : RawVal
  felonyYears : RawVal
  bankruptcyYears : RawVal
  cancerHistoryYears : RawVal
  heartEventYears : RawVal
  bmi : RawVal
  productType : Option String
  tobaccoUse : Option String
  medications : Option String
  doctorNames : Option String
  insulinDependent : Option String
  uncontrolledDiabetes : Option String
  uncontrolledHypertension : Option String
  hazardousOccupation : Option String
  avocationRisk : Option String
  travelHighRisk : Option String
  copd : Option String

/-- JS truthiness of a possibly-undefined string field. -/
def optTruthy : Option String → Bool
  | some s => decide (s ≠ "")
  | none => false

/-- JS `v?.trim()` truthiness: undefined stays falsy, a string is trimmed. -/
def optTrimTruthy : Option String → Bool
  | some s => decide (s.trim ≠ "")
  | none => false

/-- JS template-literal rendering of a possibly-undefined string field. -/
def optStr : Option String → String
  | some s => s
  | none => "undefined"

/-- One entry of `CARRIER_RULES`. -/
structure CarrierRule where
  id : String
  name : String
  products : List String
  maxIssueAge : ℤ
  minCoverage : ℤ
  maxCoverageMultiplierOfIncome : ℤ
  tobaccoLookbackYears : ℤ
  declineReasons : NormData → List String

/-- Embeds `coerceNum` inside `normalizeDataForRules`: `""`, `undefined`, `null`
become null, anything else goes through `Number`. -/
def coerceNum : RawVal → NNum
  | .undef => .nul
  | .null => .nul
  | .nan => .nan
  | .num q => .num q
  | .str s v =>
    if s = "" then .nul
    else match v with
      | none => .nan
      | some q => .num q

/-- Embeds `normalizeDataForRules` of `carrierAnalysis.ts`. -/
def normalizeDataForRules (d : RawData) : NormData :=
  { age := coerceNum d.age
    duiYears := coerceNum d.duiYears
    felonyYears := coerceNum d.felonyYears
    bankruptcyYears := coerceNum d.bankruptcyYears
    cancerHistoryYears := coerceNum d.cancerHistoryYears
    heartEventYears := coerceNum d.heartEventYears
    bmi := coerceNum d.bmi
    insulinDependent := d.insulinDependent == some "Yes"
    uncontrolledDiabetes := d.uncontrolledDiabetes == some "Yes"
    uncontrolledHypertension := d.uncontrolledHypertension == some "Yes"
    hazardousOccupation := d.hazardousOccupation == some "Yes"
    avocationRisk := d.avocationRisk == some "Yes"
    travelHighRisk := d.travelHighRisk == some "Yes"
    copd := d.copd == some "Yes" }

/-- National Life Group entry of `CARRIER_RULES`. -/
def nlgRule : CarrierRule :=
  { id := "nlg", name := "National Life Group"
    products := ["Term", "IUL", "Whole Life"]
    maxIssueAge := 80, minCoverage := 25000
    maxCoverageMultiplierOfIncome := 30, tobaccoLookbackYears := 2
    declineReasons := fun n =>
      (if ngt n.age 80 then ["Age over maximum (80)"] else []) ++
      (if nNeNull n.duiYears && nle n.duiYears 1 then ["DUI within 12 months"] else []) ++
      (if nNeNull n.bankruptcyYears && nlt n.bankruptcyYears 1 then ["Bankruptcy within 12 months"] else []) ++
      (if n.travelHighRisk then ["High-risk travel disclosed"] else []) }

/-- Mutual of Omaha entry of `CARRIER_RULES`. -/
def mooRule : CarrierRule :=
  { id := "mutual_of_omaha", name := "Mutual of Omaha"
    products := ["Term", "Whole Life"]
    maxIssueAge := 75, minCoverage := 50000
    maxCoverageMultiplierOfIncome := 25, tobaccoLookbackYears := 2
    declineReasons := fun n =>
      (if ngt n.age 75 then ["Age over maximum (75)"] else []) ++
      (if nNeNull n.cancerHistoryYears && nlt n.cancerHistoryYears 2 then ["Cancer treatment within 24 months"] else []) ++
      (if n.uncontrolledDiabetes then ["Uncontrolled diabetes disclosed"] else []) ++
      (if nTruthy n.bmi && ngt n.bmi 50 then ["BMI above program limits"] else []) }

/-- Ameritas entry of `CARRIER_RULES`. -/
def ameritasRule : CarrierRule :=
  { id := "ameritas", name := "Ameritas"
    products := ["Term", "IUL"]
    maxIssueAge := 80, minCoverage := 100000
    maxCoverageMultiplierOfIncome := 30, tobaccoLookbackYears := 2
    declineReasons := fun n =>
      (if ngt n.age 80 then ["Age over maximum (80)"] else []) ++
      (if n.hazardousOccupation then ["Hazardous occupation risk"] else []) ++
      (if n.avocationRisk then ["High-risk avocation (diving, aviation, etc.)"] else []) }

/-- Lafayette Life entry of `CARRIER_RULES`. -/
def lafayetteRule : CarrierRule :=
  { id := "lafayette_life", name := "Lafayette Life"
    products := ["Whole Life", "IUL"]
    maxIssueAge := 85, minCoverage := 25000
    maxCoverageMultiplierOfIncome := 35, tobaccoLookbackYears := 2
    declineReasons := fun n =>
      (if ngt n.age 85 then ["Age over maximum (85)"] else []) ++
      (if n.uncontrolledHypertension then ["Uncontrolled hypertension"] else []) ++
      (if n.insulinDependent then ["Insulin-dependent diabetes (program specific)"] else []) }

/-- Transamerica entry of `CARRIER_RULES`. -/
def transamericaRule : CarrierRule :=
  { id := "transamerica", name := "Transamerica"
    products := ["Term"]
    maxIssueAge := 79, minCoverage := 25000
    maxCoverageMultiplierOfIncome := 25, tobaccoLookbackYears := 1
    declineReasons := fun n =>
      (if ngt n.age 79 then ["Age over maximum (79)"] else []) ++
      (if nNeNull n.felonyYears && nlt n.felonyYears 2 then ["Felony conviction within 24 months"] else []) }

/-- American Amicable entry of `CARRIER_RULES`. -/
def americanAmicableRule : CarrierRule :=
  { id := "american_amicable", name := "American Amicable"
    products := ["Term", "Whole Life"]
    maxIssueAge := 85, minCoverage := 25000
    maxCoverageMultiplierOfIncome := 20, tobaccoLookbackYears := 2
    declineReasons := fun n =>
      (if ngt n.age 85 then ["Age over maximum (85)"] else []) ++
      (if n.copd then ["COPD disclosed"] else []) ++
      (if nNeNull n.heartEventYears && nlt n.heartEventYears 1 then ["Heart attack/stent within 12 months"] else []) }

/-- The `CARRIER_RULES` table, in source order. -/
def CARRIER_RULES : List CarrierRule :=
  [nlgRule, mooRule, ameritasRule, lafayetteRule, transamericaRule, americanAmicableRule]

/-- Product-availability flag of `evaluateCarrier`. -/
def productFlag (c : CarrierRule) (d : RawData) : List String :=
  let offered := match d.productType with
    | some s => c.products.contains s
    | none => false
  if offered then [] else ["Product not offered: " ++ optStr d.productType]

/-- Income-multiple-cap flag of `evaluateCarrier`; guarded by truthiness of
`data.coverage`, `data.annualIncome` and the carrier multiplier. -/
def incomeCapFlag (c : CarrierRule) (d : RawData) : List String :=
  if truthy d.coverage && truthy d.annualIncome &&
      decide (c.maxCoverageMultiplierOfIncome ≠ 0) then
    let cap : JNum := jmul (toNum d.annualIncome) c.maxCoverageMultiplierOfIncome
    if jgtJ (toNum d.coverage) cap then
      ["Coverage (" ++ fmtUSDraw d.coverage ++ ") exceeds " ++ c.name ++
        "\x27s income multiple cap (" ++ jstrQ c.maxCoverageMultiplierOfIncome ++
        "× = " ++ fmtUSDopt cap ++ ")"]
    else []
  else []

/-- Minimum-coverage flag of `evaluateCarrier`; guarded by truthiness of
`data.coverage` and `carrier.minCoverage`. -/
def minCovFlag (c : CarrierRule) (d : RawData) : List String :=
  if truthy d.coverage && decide (c.minCoverage ≠ 0) &&
      jlt (toNum d.coverage) c.minCoverage then
    ["Coverage below minimum (" ++ fmtUSDq c.minCoverage ++ ")"]
  else []

/-- Maximum-age flag of `evaluateCarrier`; guarded by truthiness of
`data.age` and `carrier.maxIssueAge`. -/
def ageFlag (c : CarrierRule) (d : RawData) : List String :=
  if truthy d.age && decide (c.maxIssueAge ≠ 0) &&
      jgt (toNum d.age) c.maxIssueAge then
    ["Age " ++ interp d.age ++ " exceeds maximum (" ++ jstrQ c.maxIssueAge ++ ")"]
  else []

/-- Tobacco-classification notes of `evaluateCarrier`.  The guard tests
`data.tobaccoYears !== null`, which an undefined value passes. -/
def tobaccoNotes (c : CarrierRule) (d : RawData) : List String :=
  if optTruthy d.tobaccoUse && d.tobaccoUse == some "Yes" &&
      rawNeNull d.tobaccoYears then
    if jlt (toNum d.tobaccoYears) c.tobaccoLookbackYears then
      ["Tobacco use within " ++ jstrQ c.tobaccoLookbackYears ++
        " years → likely Tobacco class."]
    else ["Tobacco use beyond lookback → Non‑Tobacco class may be considered."]
  else []

/-- Embeds `buildChecklist` of `carrierAnalysis.ts`. -/
def buildChecklist (d : RawData) : List String :=
  ["Government ID (driver\x27s license or passport)",
   "Proof of income (last 2 pay stubs or last 2 years 1099/W-2)",
   "Beneficiary information"] ++
  (if jge (toNum d.coverage) 1000000 then ["Financial justification (income + assets)"] else []) ++
  (if optTrimTruthy d.medications then ["Medication list with dosages"] else []) ++
  (if optTrimTruthy d.doctorNames then ["Primary/attending physician contact"] else []) ++
  (if d.productType == some "IUL" then ["Product illustration acknowledgment"] else []) ++
  (if d.travelHighRisk == some "Yes" then ["Travel questionnaire"] else []) ++
  (if d.avocationRisk == some "Yes" then ["Avocation questionnaire"] else []) ++
  (if d.hazardousOccupation == some "Yes" then ["Occupational risk questionnaire"] else [])

/-- The record returned by `evaluateCarrier`. -/
structure EvalResult where
  eligible : Bool
  notes : List String
  flags : List String
  decline : List String
  checklist : List String
deriving DecidableEq

/-- Embeds `evaluateCarrier` of `carrierAnalysis.ts`; flags are pushed in source
order (product, income cap, minimum coverage, age). -/
def evaluateCarrier (c : CarrierRule) (d : RawData) : EvalResult :=
  let flags := productFlag c d ++ incomeCapFlag c d ++ minCovFlag c d ++ ageFlag c d
  let decline := c.declineReasons (normalizeDataForRules d)
  { eligible := decline.length == 0 && flags.length == 0
    notes := tobaccoNotes c d
    flags := flags
    decline := decline
    checklist := buildChecklist d }

/-- Bulleted block used by the simple renderer (`forEach` push of
"  • item\n"). -/
def bulletBlock (items : List String) : String :=
  items.foldl (fun acc r => acc ++ "  • " ++ r ++ "\n") ""

/-- One carrier section of the simple `generateCarrierAnalysisText`. -/
def simpleSection (c : CarrierRule) (r : EvalResult) : String :=
  "\n**" ++ c.name ++ "**\n" ++
  "Status: " ++ (if r.eligible then "✅ Potentially Eligible" else "⚠️ Needs Review") ++ "\n\n" ++
  (if r.decline.length > 0 then "Potential Decline Triggers:\n" ++ bulletBlock r.decline ++ "\n" else "") ++
  (if r.flags.length > 0 then "Program Flags:\n" ++ bulletBlock r.flags ++ "\n" else "") ++
  (if r.notes.length > 0 then "Underwriting Notes:\n" ++ bulletBlock r.notes ++ "\n" else "") ++
  "Document Checklist:\n" ++ bulletBlock r.checklist ++ "\n"

/-- The simple renderer with the rule table passed explicitly; the source
maps `CARRIER_RULES` and folds the sections onto an empty string. -/
def generateCarrierAnalysisTextWith (rules : List CarrierRule) (d : RawData) : String :=
  (rules.map (fun c => (c, evaluateCarrier c d))).foldl
    (fun acc p => acc ++ simpleSection p.1 p.2) ""

/-- Embeds `generateCarrierAnalysisText` of `carrierAnalysis.ts`. -/
def generateCarrierAnalysisText (d : RawData) : String :=
  generateCarrierAnalysisTextWith CARRIER_RULES d

end Simple

namespace Rich

/-- Three-valued status of `src/unnamed/part_001`. -/
inductive Status where
  | eligible
  | needsReview
  | notEligible
deriving DecidableEq

/-- Source text of a status value. -/
def Status.text : Status → String
  | .eligible => "✅ Potentially Eligible"
  | .needsReview => "⚠️ Needs Review"
  | .notEligible => "❌ Not Eligible"

/-- Embeds `GuidelineResult` of `src/unnamed/part_001`. -/
structure GuidelineResult where
  status : Status
  citations : List String
  flags : List String
  documentChecklist : List String
  underwritingNotes : List String
deriving DecidableEq

/-- Embeds `IntakeData` of `src/unnamed/part_001`.  Optional numeric fields
(`tobaccoYears`, the years-since-event fields) are `Option JNum`: the outer
`none` stands for both `undefined` and `null`, which every use in the file
treats alike (guards test both, and the one `=== undefined`-only disjunct in
the tobacco checks is followed by `< k`, which a `null` — numerically 0 —
also satisfies).  `bmiParsed` abstracts `parseFloat(bmi)` (`none` = NaN);
the grammar of `parseFloat` itself is not re-implemented. -/
structure IntakeData where
  age : JNum
  sex : String
  heightIn : JNum
  weightLb : JNum
  bmi : String
  bmiParsed : Option ℤ
  annualIncome : JNum
  coverage : JNum
  productType : String
  termYears : Option JNum
  tobaccoUse : String
  tobaccoYears : Option JNum
  medications : Option String
  doctorNames : Option String
  cancerHistoryYears : Option JNum
  heartEventYears : Option JNum
  duiYears : Option JNum
  felonyYears : Option JNum
  bankruptcyYears : Option JNum
  hazardousOccupation : String
  avocationRisk : String
  travelHighRisk : String
  uncontrolledDiabetes : String
  uncontrolledHypertension : String
  insulinDependent : String
  copd : String
  state : String

/-- One sequential block of an evaluator: reads the intake and updates the
accumulated result, exactly as the source mutates its local variables. -/
abbrev Step := IntakeData → GuidelineResult → GuidelineResult

/-- Runs the blocks of an evaluator in source order. -/
def runSteps (d : IntakeData) (fs : List Step) (s : GuidelineResult) : GuidelineResult :=
  fs.foldl (fun acc f => f d acc) s

/-- Truthiness of `v && v.trim()` for an optional string field. -/
def medsTruthy : Option String → Bool
  | some s => decide (s ≠ "") && decide (s.trim ≠ "")
  | none => false

/-- Initial result of `evaluateNationalLifeGroup` (baseline checklist). -/
def nlgInit : GuidelineResult :=
  { status := .eligible, citations := [], flags := []
    documentChecklist :=
      ["Government-issued photo ID (driver\x27s license or passport)",
       "Proof of income (last 2 pay stubs OR last 2 years W-2/1099)",
       "Beneficiary information (full legal name, DOB, SSN, relationship)"]
    underwritingNotes := [] }

/-- NLG §2.1 age block. -/
def nlgAge : Step := fun d s =>
  if jgt d.age 80 then
    { s with status := .notEligible
             citations := s.citations ++
               ["NLG Underwriting Guide §2.1: Maximum issue age 80. Applicant age " ++ jstr d.age ++ " exceeds limit."] }
  else if jge d.age 75 then
    { s with underwritingNotes := s.underwritingNotes ++
        ["NLG Underwriting Guide §2.1: Age 75-80 requires senior underwriting review."] }
  else s

/-- NLG product-availability block. -/
def nlgProduct : Step := fun d s =>
  if ["Term", "IUL", "Whole Life"].contains d.productType then s
  else
    { s with status := .notEligible
             citations := s.citations ++
               ["NLG Product Matrix 2025: " ++ d.productType ++ " not offered by National Life Group."] }

/-- NLG §4.2 income-multiple block. -/
def nlgIncomeCap : Step := fun d s =>
  if jgtJ d.coverage (jmul d.annualIncome 30) then
    { s with status := .needsReview
             flags := s.flags ++
               ["NLG Underwriting Guide §4.2: Coverage " ++ fmtUSDj d.coverage ++
                 " exceeds 30× income cap (" ++ fmtUSDj (jmul d.annualIncome 30) ++ "). Financial justification required."]
             documentChecklist := s.documentChecklist ++
               ["Financial justification statement (assets, liabilities, estate planning needs)"] }
  else s

/-- NLG §4.1 minimum-coverage block. -/
def nlgMinCov : Step := fun d s =>
  if jlt d.coverage 25000 then
    { s with status := .notEligible
             citations := s.citations ++
               ["NLG Underwriting Guide §4.1: Minimum coverage $25,000. Requested " ++ fmtUSDj d.coverage ++ "."] }
  else s

/-- NLG §4.3 enhanced-financial block for coverage at or above one million. -/
def nlgMillion : Step := fun d s =>
  if jge d.coverage 1000000 then
    { s with documentChecklist := s.documentChecklist ++
               ["Financial underwriting package (tax returns, bank statements, net worth statement)"]
             underwritingNotes := s.underwritingNotes ++
               ["NLG Underwriting Guide §4.3: Coverage ≥$1M triggers enhanced financial underwriting."] }
  else s

/-- NLG §6.1 tobacco-classification block. -/
def nlgTobacco : Step := fun d s =>
  if d.tobaccoUse == "Yes" then
    match d.tobaccoYears with
    | none =>
      { s with flags := s.flags ++
          ["NLG Underwriting Guide §6.1: Further clarification required - years since last tobacco use not specified."] }
    | some y =>
      if jlt y 2 then
        { s with underwritingNotes := s.underwritingNotes ++
            ["NLG Underwriting Guide §6.1: Tobacco use within 24 months → Tobacco rate class."]
                 documentChecklist := s.documentChecklist ++
            ["Tobacco questionnaire (type, frequency, cessation date)"] }
      else
        { s with underwritingNotes := s.underwritingNotes ++
            ["NLG Underwriting Guide §6.1: Tobacco cessation >24 months → Non-Tobacco rate class eligible."] }
  else s

/-- NLG §8.4 cardiovascular block. -/
def nlgHeart : Step := fun d s =>
  match d.heartEventYears with
  | none => s
  | some y =>
    if jlt y 1 then
      { s with status := .notEligible
               citations := s.citations ++
                 ["NLG Underwriting Guide §8.4: Heart attack/stent within 12 months → automatic decline."] }
    else if jlt y 2 then
      { s with status := .needsReview
               flags := s.flags ++
                 ["NLG Underwriting Guide §8.4: Cardiovascular event within 24 months requires senior medical review."]
               documentChecklist := s.documentChecklist ++
                 ["Attending Physician Statement (APS) from cardiologist",
                  "Most recent stress test and echocardiogram results"] }
    else
      { s with underwritingNotes := s.underwritingNotes ++
                 ["NLG Underwriting Guide §8.4: Cardiovascular history >24 months → standard underwriting with APS."]
               documentChecklist := s.documentChecklist ++
                 ["Attending Physician Statement (APS) from treating cardiologist"] }

/-- NLG §8.6 cancer block. -/
def nlgCancer : Step := fun d s =>
  match d.cancerHistoryYears with
  | none => s
  | some y =>
    if jlt y 2 then
      { s with status := .needsReview
               flags := s.flags ++
                 ["NLG Underwriting Guide §8.6: Cancer treatment within 24 months requires oncology review."]
               documentChecklist := s.documentChecklist ++
                 ["Oncology records (pathology, staging, treatment protocol)",
                  "Most recent follow-up and surveillance imaging"] }
    else
      { s with underwritingNotes := s.underwritingNotes ++
                 ["NLG Underwriting Guide §8.6: Cancer history >24 months → case-by-case review based on type/stage."]
               documentChecklist := s.documentChecklist ++
                 ["Cancer history questionnaire",
                  "Attending Physician Statement (APS) from oncologist"] }

/-- NLG §8.2 uncontrolled-diabetes block. -/
def nlgDiabetes : Step := fun d s =>
  if d.uncontrolledDiabetes == "Yes" then
    { s with status := .needsReview
             flags := s.flags ++
               ["NLG Underwriting Guide §8.2: Uncontrolled diabetes requires medical review and HbA1c verification."]
             documentChecklist := s.documentChecklist ++
               ["Last 12 months HbA1c results", "Diabetes management questionnaire"] }
  else s

/-- NLG §8.2 insulin-dependence block. -/
def nlgInsulin : Step := fun d s =>
  if d.insulinDependent == "Yes" then
    { s with underwritingNotes := s.underwritingNotes ++
               ["NLG Underwriting Guide §8.2: Insulin-dependent diabetes → rated or declined based on control and complications."]
             documentChecklist := s.documentChecklist ++ ["Endocrinologist APS"] }
  else s

/-- NLG §8.3 hypertension block. -/
def nlgHypertension : Step := fun d s =>
  if d.uncontrolledHypertension == "Yes" then
    { s with status := .needsReview
             flags := s.flags ++
               ["NLG Underwriting Guide §8.3: Uncontrolled hypertension requires blood pressure readings and medication compliance verification."]
             documentChecklist := s.documentChecklist ++ ["Last 3 blood pressure readings"] }
  else s

/-- NLG §8.5 COPD block. -/
def nlgCopd : Step := fun d s =>
  if d.copd == "Yes" then
    { s with status := .needsReview
             flags := s.flags ++
               ["NLG Underwriting Guide §8.5: COPD requires pulmonary function testing and severity assessment."]
             documentChecklist := s.documentChecklist ++
               ["Pulmonary function test (PFT) results", "Pulmonologist APS"] }
  else s

/-- NLG §10.1 DUI block (decline within 12 months, review within 36). -/
def nlgDui : Step := fun d s =>
  match d.duiYears with
  | none => s
  | some y =>
    if jle y 1 then
      { s with status := .notEligible
               citations := s.citations ++
                 ["NLG Underwriting Guide §10.1: DUI within 12 months → automatic decline."] }
    else if jlt y 3 then
      { s with status := .needsReview
               flags := s.flags ++
                 ["NLG Underwriting Guide §10.1: DUI within 36 months requires risk assessment."] }
    else s

/-- NLG §10.2 felony block. -/
def nlgFelony : Step := fun d s =>
  match d.felonyYears with
  | none => s
  | some y =>
    if jlt y 2 then
      { s with status := .needsReview
               flags := s.flags ++
                 ["NLG Underwriting Guide §10.2: Felony conviction within 24 months requires legal review."] }
    else s

/-- NLG §10.3 bankruptcy block. -/
def nlgBankruptcy : Step := fun d s =>
  match d.bankruptcyYears with
  | none => s
  | some y =>
    if jlt y 1 then
      { s with status := .notEligible
               citations := s.citations ++
                 ["NLG Underwriting Guide §10.3: Bankruptcy within 12 months → automatic decline."] }
    else s

/-- NLG §11.1 hazardous-occupation block. -/
def nlgHazOcc : Step := fun d s =>
  if d.hazardousOccupation == "Yes" then
    { s with status := .needsReview
             flags := s.flags ++
               ["NLG Underwriting Guide §11.1: Hazardous occupation requires occupational questionnaire and rating assessment."]
             documentChecklist := s.documentChecklist ++ ["Occupational duties questionnaire"] }
  else s

/-- NLG §11.2 avocation block. -/
def nlgAvocation : Step := fun d s =>
  if d.avocationRisk == "Yes" then
    { s with status := .needsReview
             flags := s.flags ++
               ["NLG Underwriting Guide §11.2: High-risk avocation (aviation, diving, climbing) requires avocation questionnaire."]
             documentChecklist := s.documentChecklist ++
               ["Avocation questionnaire (frequency, training, safety measures)"] }
  else s

/-- NLG §11.3 travel block. -/
def nlgTravel : Step := fun d s =>
  if d.travelHighRisk == "Yes" then
    { s with status := .needsReview
             flags := s.flags ++
               ["NLG Underwriting Guide §11.3: High-risk travel requires destination and duration disclosure."]
             documentChecklist := s.documentChecklist ++ ["Foreign travel questionnaire"] }
  else s

/-- NLG §7.1 medication block. -/
def nlgMeds : Step := fun d s =>
  if medsTruthy d.medications then
    { s with documentChecklist := s.documentChecklist ++
               ["Complete medication list with dosages and prescribing physicians"]
             underwritingNotes := s.underwritingNotes ++
               ["NLG Underwriting Guide §7.1: All medications subject to underwriting review for underlying conditions."] }
  else s

/-- NLG §7.2 physician-disclosure block. -/
def nlgDoctors : Step := fun d s =>
  if medsTruthy d.doctorNames then
    { s with underwritingNotes := s.underwritingNotes ++
               ["NLG Underwriting Guide §7.2: Physician disclosure triggers APS request for medical history verification."] }
  else s

/-- The blocks of `evaluateNationalLifeGroup`, in source order. -/
def nlgSteps : List Step :=
  [nlgAge, nlgProduct, nlgIncomeCap, nlgMinCov, nlgMillion, nlgTobacco,
   nlgHeart, nlgCancer, nlgDiabetes, nlgInsulin, nlgHypertension, nlgCopd,
   nlgDui, nlgFelony, nlgBankruptcy, nlgHazOcc, nlgAvocation, nlgTravel,
   nlgMeds, nlgDoctors]

/-- Embeds `evaluateNationalLifeGroup` of `src/unnamed/part_001`. -/
def evaluateNationalLifeGroup (d : IntakeData) : GuidelineResult :=
  runSteps d nlgSteps nlgInit

end Rich

namespace Rich

/-- Initial result of `evaluateMutualOfOmaha`. -/
def mooInit : GuidelineResult :=
  { status := .eligible, citations := [], flags := []
    documentChecklist :=
      ["Government-issued photo ID",
       "Income verification (pay stubs or tax returns)",
       "Beneficiary details"]
    underwritingNotes := [] }

/-- MOO §1.2 age block. -/
def mooAge : Step := fun d s =>
  if jgt d.age 75 then
    { s with status := .notEligible
             citations := s.citations ++
               ["MOO Underwriting Manual §1.2: Maximum issue age 75. Applicant age " ++ jstr d.age ++ " exceeds limit."] }
  else s

/-- MOO product-availability block. -/
def mooProduct : Step := fun d s =>
  if ["Term", "Whole Life"].contains d.productType then s
  else
    { s with status := .notEligible
             citations := s.citations ++
               ["MOO Product Guide 2025: " ++ d.productType ++ " not available. Mutual of Omaha offers Term and Whole Life only."] }

/-- MOO §3.1 minimum-coverage block. -/
def mooMinCov : Step := fun d s =>
  if jlt d.coverage 50000 then
    { s with status := .notEligible
             citations := s.citations ++
               ["MOO Underwriting Manual §3.1: Minimum face amount $50,000. Requested " ++ fmtUSDj d.coverage ++ "."] }
  else s

/-- MOO §3.2 income-multiple block. -/
def mooIncomeCap : Step := fun d s =>
  if jgtJ d.coverage (jmul d.annualIncome 25) then
    { s with status := .needsReview
             flags := s.flags ++
               ["MOO Underwriting Manual §3.2: Coverage exceeds 25× income (" ++ fmtUSDj (jmul d.annualIncome 25) ++ "). Financial underwriting required."]
             documentChecklist := s.documentChecklist ++ ["Financial needs analysis"] }
  else s

/-- MOO §5.3 BMI block; `parseFloat` NaN is guarded with `isNaN`. -/
def mooBmi : Step := fun d s =>
  match d.bmiParsed with
  | none => s
  | some b =>
    if b > 50 then
      { s with status := .notEligible
               citations := s.citations ++
                 ["MOO Underwriting Manual §5.3: BMI " ++ d.bmi ++ " exceeds maximum (50). Automatic decline."] }
    else if b > 40 then
      { s with status := .needsReview
               flags := s.flags ++
                 ["MOO Underwriting Manual §5.3: BMI " ++ d.bmi ++ " requires obesity assessment and comorbidity review."]
               documentChecklist := s.documentChecklist ++ ["Weight history and management plan"] }
    else s

/-- MOO §4.1 tobacco-classification block. -/
def mooTobacco : Step := fun d s =>
  if d.tobaccoUse == "Yes" then
    match d.tobaccoYears with
    | none =>
      { s with flags := s.flags ++
          ["MOO Underwriting Manual §4.1: Further clarification required - tobacco cessation date not provided."] }
    | some y =>
      if jlt y 2 then
        { s with underwritingNotes := s.underwritingNotes ++
            ["MOO Underwriting Manual §4.1: Tobacco use within 24 months → Tobacco rate class."] }
      else
        { s with underwritingNotes := s.underwritingNotes ++
            ["MOO Underwriting Manual §4.1: Tobacco-free >24 months → Non-Tobacco rates apply."] }
  else s

/-- MOO §6.4 cancer block. -/
def mooCancer : Step := fun d s =>
  match d.cancerHistoryYears with
  | none => s
  | some y =>
    if jlt y 2 then
      { s with status := .notEligible
               citations := s.citations ++
                 ["MOO Underwriting Manual §6.4: Cancer treatment within 24 months → automatic decline."] }
    else if jlt y 5 then
      { s with status := .needsReview
               flags := s.flags ++
                 ["MOO Underwriting Manual §6.4: Cancer history 2-5 years requires oncology review and staging verification."]
               documentChecklist := s.documentChecklist ++ ["Oncology APS with pathology and staging"] }
    else
      { s with underwritingNotes := s.underwritingNotes ++
                 ["MOO Underwriting Manual §6.4: Cancer history >5 years → standard underwriting with medical records."]
               documentChecklist := s.documentChecklist ++ ["Cancer treatment summary"] }

/-- MOO §6.2 uncontrolled-diabetes block. -/
def mooDiabetes : Step := fun d s =>
  if d.uncontrolledDiabetes == "Yes" then
    { s with status := .notEligible
             citations := s.citations ++
               ["MOO Underwriting Manual §6.2: Uncontrolled diabetes (HbA1c >9.0 or unstable) → decline."] }
  else s

/-- MOO §6.2 insulin-dependence block. -/
def mooInsulin : Step := fun d s =>
  if d.insulinDependent == "Yes" then
    { s with underwritingNotes := s.underwritingNotes ++
               ["MOO Underwriting Manual §6.2: Insulin-dependent diabetes requires endocrinology review."]
             documentChecklist := s.documentChecklist ++
               ["Diabetes control records (HbA1c, glucose logs)"] }
  else s

/-- MOO §6.3 cardiovascular block. -/
def mooHeart : Step := fun d s =>
  match d.heartEventYears with
  | none => s
  | some y =>
    if jlt y 1 then
      { s with status := .notEligible
               citations := s.citations ++
                 ["MOO Underwriting Manual §6.3: MI/stent within 12 months → decline."] }
    else s

/-- MOO §6.5 COPD block. -/
def mooCopd : Step := fun d s =>
  if d.copd == "Yes" then
    { s with status := .needsReview
             flags := s.flags ++
               ["MOO Underwriting Manual §6.5: COPD requires PFT and severity grading."]
             documentChecklist := s.documentChecklist ++ ["Pulmonary function test results"] }
  else s

/-- The blocks of `evaluateMutualOfOmaha`, in source order. -/
def mooSteps : List Step :=
  [mooAge, mooProduct, mooMinCov, mooIncomeCap, mooBmi, mooTobacco,
   mooCancer, mooDiabetes, mooInsulin, mooHeart, mooCopd]

/-- Embeds `evaluateMutualOfOmaha` of `src/unnamed/part_001`. -/
def evaluateMutualOfOmaha (d : IntakeData) : GuidelineResult :=
  runSteps d mooSteps mooInit

/-- Initial result of `evaluateAmeritas`. -/
def amInit : GuidelineResult :=
  { status := .eligible, citations := [], flags := []
    documentChecklist := ["Photo ID", "Income documentation", "Beneficiary information"]
    underwritingNotes := [] }

/-- Ameritas §2.1 age block. -/
def amAge : Step := fun d s =>
  if jgt d.age 80 then
    { s with status := .notEligible
             citations := s.citations ++
               ["Ameritas UW Guide §2.1: Maximum issue age 80. Applicant age " ++ jstr d.age ++ "."] }
  else s

/-- Ameritas product-availability block. -/
def amProduct : Step := fun d s =>
  if ["Term", "IUL"].contains d.productType then s
  else
    { s with status := .notEligible
             citations := s.citations ++
               ["Ameritas Product Matrix: " ++ d.productType ++ " not offered. Ameritas offers Term and IUL only."] }

/-- Ameritas §4.1 minimum-coverage block. -/
def amMinCov : Step := fun d s =>
  if jlt d.coverage 100000 then
    { s with status := .notEligible
             citations := s.citations ++
               ["Ameritas UW Guide §4.1: Minimum face amount $100,000. Requested " ++ fmtUSDj d.coverage ++ "."] }
  else s

/-- Ameritas §4.2 income-multiple block; the flag text does not embed the
computed cap. -/
def amIncomeCap : Step := fun d s =>
  if jgtJ d.coverage (jmul d.annualIncome 30) then
    { s with status := .needsReview
             flags := s.flags ++
               ["Ameritas UW Guide §4.2: Coverage exceeds 30× income. Financial justification required."]
             documentChecklist := s.documentChecklist ++ ["Financial statement and needs analysis"] }
  else s

/-- Ameritas §9.1 hazardous-occupation block. -/
def amHazOcc : Step := fun d s =>
  if d.hazardousOccupation == "Yes" then
    { s with status := .needsReview
             flags := s.flags ++
               ["Ameritas UW Guide §9.1: Hazardous occupation requires occupational underwriting and potential rating."]
             documentChecklist := s.documentChecklist ++ ["Detailed occupational questionnaire"] }
  else s

/-- Ameritas §9.2 avocation block. -/
def amAvocation : Step := fun d s =>
  if d.avocationRisk == "Yes" then
    { s with status := .needsReview
             flags := s.flags ++
               ["Ameritas UW Guide §9.2: High-risk avocation (pilot, scuba, mountaineering) requires avocation questionnaire and exclusion/rating consideration."]
             documentChecklist := s.documentChecklist ++
               ["Avocation details (frequency, training, equipment)"] }
  else s

/-- Ameritas §5.1 tobacco block: absent years and years below lookback both
yield the single tobacco-rates note; there is no clarification flag. -/
def amTobacco : Step := fun d s =>
  if d.tobaccoUse == "Yes" &&
      (match d.tobaccoYears with
        | none => true
        | some y => jlt y 2) then
    { s with underwritingNotes := s.underwritingNotes ++
        ["Ameritas UW Guide §5.1: Tobacco use within 24 months → Tobacco rates."] }
  else s

/-- The blocks of `evaluateAmeritas`, in source order. -/
def amSteps : List Step :=
  [amAge, amProduct, amMinCov, amIncomeCap, amHazOcc, amAvocation, amTobacco]

/-- Embeds `evaluateAmeritas` of `src/unnamed/part_001`. -/
def evaluateAmeritas (d : IntakeData) : GuidelineResult :=
  runSteps d amSteps amInit

/-- Initial result of `evaluateLafayetteLife`. -/
def lfInit : GuidelineResult :=
  { status := .eligible, citations := [], flags := []
    documentChecklist := ["Government ID", "Proof of income", "Beneficiary designation form"]
    underwritingNotes := [] }

/-- Lafayette §1.3 age block. -/
def lfAge : Step := fun d s =>
  if jgt d.age 85 then
    { s with status := .notEligible
             citations := s.citations ++
               ["Lafayette UW Manual §1.3: Maximum issue age 85. Applicant age " ++ jstr d.age ++ "."] }
  else s

/-- Lafayette product-availability block. -/
def lfProduct : Step := fun d s =>
  if ["Whole Life", "IUL"].contains d.productType then s
  else
    { s with status := .notEligible
             citations := s.citations ++
               ["Lafayette Product Guide: " ++ d.productType ++ " not available. Lafayette Life offers Whole Life and IUL only."] }

/-- Lafayette §3.1 minimum-coverage block. -/
def lfMinCov : Step := fun d s =>
  if jlt d.coverage 25000 then
    { s with status := .notEligible
             citations := s.citations ++
               ["Lafayette UW Manual §3.1: Minimum coverage $25,000."] }
  else s

/-- Lafayette §3.2 income-multiple block (flag only, no status change,
no computed cap in the text). -/
def lfIncomeCap : Step := fun d s =>
  if jgtJ d.coverage (jmul d.annualIncome 35) then
    { s with flags := s.flags ++
               ["Lafayette UW Manual §3.2: Coverage exceeds 35× income cap. Enhanced financial underwriting required."]
             documentChecklist := s.documentChecklist ++ ["Net worth statement"] }
  else s

/-- Lafayette §7.2 hypertension block. -/
def lfHypertension : Step := fun d s =>
  if d.uncontrolledHypertension == "Yes" then
    { s with status := .needsReview
             flags := s.flags ++
               ["Lafayette UW Manual §7.2: Uncontrolled hypertension requires BP readings and medication compliance verification."]
             documentChecklist := s.documentChecklist ++ ["Blood pressure log (last 3 readings)"] }
  else s

/-- Lafayette §7.3 insulin-dependence block. -/
def lfInsulin : Step := fun d s =>
  if d.insulinDependent == "Yes" then
    { s with status := .needsReview
             flags := s.flags ++
               ["Lafayette UW Manual §7.3: Insulin-dependent diabetes subject to program-specific restrictions. Requires endocrinology review."]
             documentChecklist := s.documentChecklist ++ ["Diabetes management records"] }
  else s

/-- Lafayette §6.1 tobacco block (same shape as Ameritas). -/
def lfTobacco : Step := fun d s =>
  if d.tobaccoUse == "Yes" &&
      (match d.tobaccoYears with
        | none => true
        | some y => jlt y 2) then
    { s with underwritingNotes := s.underwritingNotes ++
        ["Lafayette UW Manual §6.1: Tobacco use within 24 months → Tobacco classification."] }
  else s

/-- The blocks of `evaluateLafayetteLife`, in source order. -/
def lfSteps : List Step :=
  [lfAge, lfProduct, lfMinCov, lfIncomeCap, lfHypertension, lfInsulin, lfTobacco]

/-- Embeds `evaluateLafayetteLife` of `src/unnamed/part_001`. -/
def evaluateLafayetteLife (d : IntakeData) : GuidelineResult :=
  runSteps d lfSteps lfInit

/-- Initial result of `evaluateTransamerica`. -/
def trInit : GuidelineResult :=
  { status := .eligible, citations := [], flags := []
    documentChecklist := ["Photo identification", "Income verification", "Beneficiary information"]
    underwritingNotes := [] }

/-- Transamerica §1.1 age block. -/
def trAge : Step := fun d s =>
  if jgt d.age 79 then
    { s with status := .notEligible
             citations := s.citations ++
               ["Transamerica UW Guide §1.1: Maximum issue age 79. Applicant age " ++ jstr d.age ++ "."] }
  else s

/-- Transamerica product block (Term only). -/
def trProduct : Step := fun d s =>
  if d.productType == "Term" then s
  else
    { s with status := .notEligible
             citations := s.citations ++
               ["Transamerica Product Portfolio: Only Term products evaluated. " ++ d.productType ++ " not applicable."] }

/-- Transamerica §4.1 minimum-coverage block. -/
def trMinCov : Step := fun d s =>
  if jlt d.coverage 25000 then
    { s with status := .notEligible
             citations := s.citations ++
               ["Transamerica UW Guide §4.1: Minimum face amount $25,000."] }
  else s

/-- Transamerica §4.2 income-multiple block (flag only, no status change). -/
def trIncomeCap : Step := fun d s =>
  if jgtJ d.coverage (jmul d.annualIncome 25) then
    { s with flags := s.flags ++
               ["Transamerica UW Guide §4.2: Coverage exceeds 25× income. Financial justification required."]
             documentChecklist := s.documentChecklist ++ ["Financial needs analysis"] }
  else s

/-- Transamerica §10.1 felony block. -/
def trFelony : Step := fun d s =>
  match d.felonyYears with
  | none => s
  | some y =>
    if jlt y 2 then
      { s with status := .notEligible
               citations := s.citations ++
                 ["Transamerica UW Guide §10.1: Felony conviction within 24 months → decline."] }
    else s

/-- Transamerica §5.1 tobacco block (12-month lookback). -/
def trTobacco : Step := fun d s =>
  if d.tobaccoUse == "Yes" then
    if (match d.tobaccoYears with
        | none => true
        | some y => jlt y 1) then
      { s with underwritingNotes := s.underwritingNotes ++
          ["Transamerica UW Guide §5.1: Tobacco use within 12 months → Tobacco rates (note: 12-month lookback, not 24)."] }
    else
      { s with underwritingNotes := s.underwritingNotes ++
          ["Transamerica UW Guide §5.1: Tobacco-free >12 months → Non-Tobacco rates eligible."] }
  else s

/-- The blocks of `evaluateTransamerica`, in source order. -/
def trSteps : List Step :=
  [trAge, trProduct, trMinCov, trIncomeCap, trFelony, trTobacco]

/-- Embeds `evaluateTransamerica` of `src/unnamed/part_001`. -/
def evaluateTransamerica (d : IntakeData) : GuidelineResult :=
  runSteps d trSteps trInit

/-- Initial result of `evaluateAmericanAmicable`. -/
def aaInit : GuidelineResult :=
  { status := .eligible, citations := [], flags := []
    documentChecklist := ["Government-issued ID", "Income documentation", "Beneficiary form"]
    underwritingNotes := [] }

/-- American Amicable §2.1 age block. -/
def aaAge : Step := fun d s =>
  if jgt d.age 85 then
    { s with status := .notEligible
             citations := s.citations ++
               ["AA UW Manual §2.1: Maximum issue age 85. Applicant age " ++ jstr d.age ++ "."] }
  else s

/-- American Amicable product-availability block. -/
def aaProduct : Step := fun d s =>
  if ["Term", "Whole Life"].contains d.productType then s
  else
    { s with status := .notEligible
             citations := s.citations ++
               ["AA Product Guide: " ++ d.productType ++ " not offered. American Amicable offers Term and Whole Life only."] }

/-- American Amicable §3.1 minimum-coverage block. -/
def aaMinCov : Step := fun d s =>
  if jlt d.coverage 25000 then
    { s with status := .notEligible
             citations := s.citations ++
               ["AA UW Manual §3.1: Minimum face amount $25,000."] }
  else s

/-- American Amicable §3.2 income-multiple block (flag only). -/
def aaIncomeCap : Step := fun d s =>
  if jgtJ d.coverage (jmul d.annualIncome 20) then
    { s with flags := s.flags ++
               ["AA UW Manual §3.2: Coverage exceeds 20× income. Financial underwriting required."]
             documentChecklist := s.documentChecklist ++ ["Financial justification statement"] }
  else s

/-- American Amicable §8.3 COPD block. -/
def aaCopd : Step := fun d s =>
  if d.copd == "Yes" then
    { s with status := .notEligible
             citations := s.citations ++
               ["AA UW Manual §8.3: COPD diagnosis → decline per simplified issue guidelines."] }
  else s

/-- American Amicable §8.1 cardiovascular block. -/
def aaHeart : Step := fun d s =>
  match d.heartEventYears with
  | none => s
  | some y =>
    if jlt y 1 then
      { s with status := .notEligible
               citations := s.citations ++
                 ["AA UW Manual §8.1: Heart attack/stent within 12 months → decline."] }
    else if jlt y 2 then
      { s with status := .needsReview
               flags := s.flags ++
                 ["AA UW Manual §8.1: Cardiovascular event within 24 months requires cardiology review."]
               documentChecklist := s.documentChecklist ++
                 ["Cardiology APS and recent test results"] }
    else s

/-- American Amicable §5.1 tobacco block (same shape as Ameritas). -/
def aaTobacco : Step := fun d s =>
  if d.tobaccoUse == "Yes" &&
      (match d.tobaccoYears with
        | none => true
        | some y => jlt y 2) then
    { s with underwritingNotes := s.underwritingNotes ++
        ["AA UW Manual §5.1: Tobacco use within 24 months → Tobacco rates."] }
  else s

/-- The blocks of `evaluateAmericanAmicable`, in source order. -/
def aaSteps : List Step :=
  [aaAge, aaProduct, aaMinCov, aaIncomeCap, aaCopd, aaHeart, aaTobacco]

/-- Embeds `evaluateAmericanAmicable` of `src/unnamed/part_001`. -/
def evaluateAmericanAmicable (d : IntakeData) : GuidelineResult :=
  runSteps d aaSteps aaInit

/-- The hard-coded carrier list of the rich `generateCarrierAnalysisText`. -/
def richCarriers : List (String × (IntakeData → GuidelineResult)) :=
  [("National Life Group", evaluateNationalLifeGroup),
   ("Mutual of Omaha", evaluateMutualOfOmaha),
   ("Ameritas", evaluateAmeritas),
   ("Lafayette Life", evaluateLafayetteLife),
   ("Transamerica", evaluateTransamerica),
   ("American Amicable", evaluateAmericanAmicable)]

/-- The 63-character double-rule line of the rich renderer. -/
def eqLine : String := String.mk (List.replicate 63 '═')

/-- The 59-character heavy-rule line of the rich renderer. -/
def dashLine : String := String.mk (List.replicate 59 '━')

/-- Report header of the rich renderer. -/
def reportHeader : String :=
  eqLine ++ "\n" ++ "  CARRIER ELIGIBILITY ANALYSIS — LICENSED AGENT REVIEW\n" ++
  eqLine ++ "\n\n"

/-- Report footer of the rich renderer. -/
def reportFooter : String :=
  eqLine ++ "\n" ++ "  END OF ANALYSIS\n" ++ eqLine ++ "\n"

/-- Embeds `forEach` block rendering each item as "  mark item\n". -/
def markedBlock (mark : String) (items : List String) : String :=
  items.foldl (fun acc r => acc ++ "  " ++ mark ++ " " ++ r ++ "\n") ""

/-- One carrier section of the rich renderer. -/
def richSection (name : String) (r : GuidelineResult) : String :=
  dashLine ++ "\n" ++ "  " ++ name.toUpper ++ "\n" ++ dashLine ++ "\n\n" ++
  "STATUS: " ++ r.status.text ++ "\n\n" ++
  (if r.citations.length > 0 then "GUIDELINE CITATIONS:\n" ++ markedBlock "•" r.citations ++ "\n" else "") ++
  (if r.flags.length > 0 then "FLAGS / REVIEW REQUIRED:\n" ++ markedBlock "⚠" r.flags ++ "\n" else "") ++
  (if r.underwritingNotes.length > 0 then "UNDERWRITING NOTES:\n" ++ markedBlock "→" r.underwritingNotes ++ "\n" else "") ++
  "REQUIRED DOCUMENTATION:\n" ++ markedBlock "☐" r.documentChecklist ++ "\n"

/-- The rich renderer with its carrier list passed explicitly; the source
binds the list locally and loops over it between header and footer. -/
def generateCarrierAnalysisTextWith
    (carriers : List (String × (IntakeData → GuidelineResult)))
    (d : IntakeData) : String :=
  carriers.foldl (fun acc c => acc ++ richSection c.1 (c.2 d)) reportHeader ++
  reportFooter

/-- Embeds `generateCarrierAnalysisText` of `src/unnamed/part_001`. -/
def generateCarrierAnalysisText (d : IntakeData) : String :=
  generateCarrierAnalysisTextWith richCarriers d

end Rich

/-! Concrete applicant records used by counterexamples and witnesses. -/

/-- A benign rich-variant intake: middle-aged Term applicant, no risk
factors, all optional year fields absent. -/
def benign : Rich.IntakeData :=
  { age := some 30, sex := "F", heightIn := some 70, weightLb := some 190
    bmi := "27", bmiParsed := some 27
    annualIncome := some 100000, coverage := some 500000
    productType := "Term", termYears := none
    tobaccoUse := "No", tobaccoYears := none
    medications := none, doctorNames := none
    cancerHistoryYears := none, heartEventYears := none, duiYears := none
    felonyYears := none, bankruptcyYears := none
    hazardousOccupation := "No", avocationRisk := "No", travelHighRisk := "No"
    uncontrolledDiabetes := "No", uncontrolledHypertension := "No"
    insulinDependent := "No", copd := "No", state := "TX" }

/-- Age 81 with coverage above the NLG 30× income cap: the later §4.2 block
overwrites the §2.1 Not Eligible status. -/
def cexAgeOverwrite : Rich.IntakeData :=
  { benign with age := some 81, annualIncome := some 1000, coverage := some 100000 }

/-- Age 86, above every carrier's maximum issue age. -/
def wOverAge : Rich.IntakeData := { benign with age := some 86 }

/-- Coverage below the NLG minimum together with a hazardous occupation:
the later §11.1 block overwrites the §4.1 Not Eligible status. -/
def cexMinCovOverwrite : Rich.IntakeData :=
  { benign with coverage := some 10000, hazardousOccupation := "Yes" }

/-- Coverage 100, below every carrier's minimum. -/
def wUnderMinCov : Rich.IntakeData := { benign with coverage := some 100 }

/-- Coverage far above every carrier's income-multiple cap. -/
def cexCapAmeritas : Rich.IntakeData :=
  { benign with annualIncome := some 1000, coverage := some 200000 }

/-- Coverage above every carrier's income-multiple cap (witness record). -/
def wOverCap : Rich.IntakeData :=
  { benign with annualIncome := some 1000, coverage := some 300000 }

/-- Tobacco use reported, years since use absent. -/
def cexTobaccoAbsent : Rich.IntakeData := { benign with tobaccoUse := "Yes" }

/-- Tobacco use reported, quit 0 years ago. -/
def wTobaccoRecent : Rich.IntakeData :=
  { benign with tobaccoUse := "Yes", tobaccoYears := some (some 0) }

/-- Tobacco use reported, quit 5 years ago. -/
def wTobaccoQuit : Rich.IntakeData :=
  { benign with tobaccoUse := "Yes", tobaccoYears := some (some 5) }

/-- Tobacco use reported, years since use absent (witness record). -/
def wTobaccoAbsent : Rich.IntakeData := { benign with tobaccoUse := "Yes" }

/-- A benign simple-variant raw record: numeric fields are numbers, all
optional year fields undefined. -/
def rawBenign : Simple.RawData :=
  { age := .num 30, coverage := .num 500000, annualIncome := .num 100000
    tobaccoYears := .undef, duiYears := .undef, felonyYears := .undef
    bankruptcyYears := .undef, cancerHistoryYears := .undef
    heartEventYears := .undef, bmi := .undef
    productType := some "Term", tobaccoUse := some "No"
    medications := none, doctorNames := none
    insulinDependent := some "No", uncontrolledDiabetes := some "No"
    uncontrolledHypertension := some "No", hazardousOccupation := some "No"
    avocationRisk := some "No", travelHighRisk := some "No", copd := some "No" }

/-- Raw record requesting exactly one million of coverage. -/
def rawMillion : Simple.RawData := { rawBenign with coverage := .num 1000000 }

/-- Raw record with a DUI zero years ago. -/
def rawZeroDui : Simple.RawData := { rawBenign with duiYears := .num 0 }

/-- Raw record whose coverage, income and age are all the number 0. -/
def rawZeros : Simple.RawData :=
  { rawBenign with coverage := .num 0, annualIncome := .num 0, age := .num 0 }

namespace Rich

/-- A step preserves a non-eligible status and only appends to the four
message lists — which every block of every evaluator does. -/
def Preserves (f : Step) : Prop :=
  ∀ d s,
    ((f d s).status = Status.eligible → s.status = Status.eligible) ∧
    s.citations ⊆ (f d s).citations ∧
    s.flags ⊆ (f d s).flags ∧
    s.underwritingNotes ⊆ (f d s).underwritingNotes ∧
    s.documentChecklist ⊆ (f d s).documentChecklist

/-- A predicate on results is invariant under a step at a fixed intake. -/
def StepInv (Q : GuidelineResult → Prop) (d : IntakeData) (f : Step) : Prop :=
  ∀ s, Q s → Q (f d s)

/-- No underwriting note mentions "Tobacco". -/
def NotesTobaccoFree (s : GuidelineResult) : Prop :=
  ∀ m ∈ s.underwritingNotes, strContains m "Tobacco" = false

end Rich


namespace Simple

/-- An absent raw value per `coerceNum`: empty string, undefined, or null. -/
def isAbsentRaw : RawVal → Bool
  | .undef => true
  | .null => true
  | .str s _ => s == ""
  | _ => false

end Simple

/-- Replaces every numeric-ish raw field of a record by the given value. -/
def setNums (v : Simple.RawVal) (d : Simple.RawData) : Simple.RawData :=
  { d with age := v, coverage := v, annualIncome := v, tobaccoYears := v
           duiYears := v, felonyYears := v, bankruptcyYears := v
           cancerHistoryYears := v, heartEventYears := v, bmi := v }

/-- Rich intake requesting exactly one million of coverage. -/
def wMillionRich : Rich.IntakeData := { benign with coverage := some 1000000 }

/-- Rich intake whose BMI string does not parse. -/
def wBmiNaN : Rich.IntakeData := { benign with bmi := "abc", bmiParsed := none }

/-- Raw record with age 86, above every maximum issue age. -/
def rawOldAge : Simple.RawData := { rawBenign with age := .num 86 }

/-! ## Theorems -/

theorem listPrefixOf_append (p l z : List Char) (h : listPrefixOf p l = true) :
    listPrefixOf p (l ++ z) = true := by
  induction p generalizing l with
  | nil => simp [listPrefixOf]
  | cons a as ih =>
    cases l with
    | nil => simp [listPrefixOf] at h
    | cons b bs =>
      simp only [listPrefixOf, Bool.and_eq_true] at h ⊢
      exact ⟨h.1, ih bs h.2⟩

theorem listPrefixOf_self_append (p z : List Char) :
    listPrefixOf p (p ++ z) = true := by
  induction p with
  | nil => simp [listPrefixOf]
  | cons a as ih => simp [listPrefixOf, ih]

theorem listContains_of_prefixOf (p l : List Char) (h : listPrefixOf p l = true) :
    listContains p l = true := by
  cases l with
  | nil =>
    cases p with
    | nil => rfl
    | cons a as => simp [listPrefixOf] at h
  | cons b bs => simp [listContains, h]

theorem listContains_append_left (p xs ys : List Char)
    (h : listContains p xs = true) : listContains p (xs ++ ys) = true := by
  induction xs with
  | nil =>
    cases p with
    | nil => exact listContains_of_prefixOf _ _ (by simp [listPrefixOf])
    | cons a as => simp [listContains, listPrefixOf] at h
  | cons b bs ih =>
    simp only [listContains, Bool.or_eq_true, List.cons_append] at h ⊢
    rcases h with h | h
    · exact Or.inl (listPrefixOf_append _ _ _ h)
    · exact Or.inr (ih h)

theorem listContains_append_right (p xs ys : List Char)
    (h : listContains p ys = true) : listContains p (xs ++ ys) = true := by
  induction xs with
  | nil => simpa using h
  | cons b bs ih => simp [listContains, ih]

theorem listContains_self_append (p z : List Char) :
    listContains p (p ++ z) = true :=
  listContains_of_prefixOf _ _ (listPrefixOf_self_append p z)

theorem strContains_append_left (a b pat : String)
    (h : strContains a pat = true) : strContains (a ++ b) pat = true := by
  unfold strContains at h ⊢
  rw [String.data_append]
  exact listContains_append_left _ _ _ h

theorem strContains_append_right (a b pat : String)
    (h : strContains b pat = true) : strContains (a ++ b) pat = true := by
  unfold strContains at h ⊢
  rw [String.data_append]
  exact listContains_append_right _ _ _ h

theorem le_len_append (a b : String) (k : ℕ) (h : k ≤ a.data.length) :
    k ≤ (a ++ b).data.length := by
  rw [String.data_append, List.length_append]
  omega

theorem strApp_take (a b : String) (k : ℕ) (hk : k ≤ a.data.length) :
    (a ++ b).data.take k = a.data.take k := by
  rw [String.data_append]
  exact List.take_append_of_le_length hk

theorem tmpl1_take (pre x suf : String) (k : ℕ) (hk : k ≤ pre.data.length) :
    (pre ++ x ++ suf).data.take k = pre.data.take k := by
  rw [strApp_take _ _ _ (le_len_append _ _ _ hk), strApp_take _ _ _ hk]

theorem tmpl1_ne (pre x suf c : String) (k : ℕ) (hk : k ≤ pre.data.length)
    (h : pre.data.take k ≠ c.data.take k) : pre ++ x ++ suf ≠ c := by
  intro he
  exact h (by rw [← tmpl1_take pre x suf k hk, he])

theorem tmpl2_take (pre x1 mid x2 suf : String) (k : ℕ)
    (hk : k ≤ pre.data.length) :
    (pre ++ x1 ++ mid ++ x2 ++ suf).data.take k = pre.data.take k := by
  rw [strApp_take _ _ _ (le_len_append _ _ _ (le_len_append _ _ _ (le_len_append _ _ _ hk))),
      strApp_take _ _ _ (le_len_append _ _ _ (le_len_append _ _ _ hk)),
      strApp_take _ _ _ (le_len_append _ _ _ hk),
      strApp_take _ _ _ hk]

theorem tmpl2_ne (pre x1 mid x2 suf c : String) (k : ℕ)
    (hk : k ≤ pre.data.length) (h : pre.data.take k ≠ c.data.take k) :
    pre ++ x1 ++ mid ++ x2 ++ suf ≠ c := by
  intro he
  exact h (by rw [← tmpl2_take pre x1 mid x2 suf k hk, he])

theorem runSteps_inv (Q : Rich.GuidelineResult → Prop) (d : Rich.IntakeData) :
    ∀ (fs : List Rich.Step) (s : Rich.GuidelineResult),
      (∀ f ∈ fs, Rich.StepInv Q d f) → Q s → Q (Rich.runSteps d fs s) := by
  intro fs
  induction fs with
  | nil => intro s _ hq; simpa [Rich.runSteps] using hq
  | cons f rest ih =>
    intro s hall hq
    have h1 : Rich.runSteps d (f :: rest) s = Rich.runSteps d rest (f d s) := rfl
    rw [h1]
    exact ih _ (fun g hg => hall g (List.mem_cons_of_mem _ hg))
      (hall f (List.mem_cons_self _ _) s hq)

theorem runSteps_split (d : Rich.IntakeData) (pre post : List Rich.Step)
    (s : Rich.GuidelineResult) :
    Rich.runSteps d (pre ++ post) s = Rich.runSteps d post (Rich.runSteps d pre s) := by
  simp [Rich.runSteps, List.foldl_append]

theorem runSteps_fire (Q : Rich.GuidelineResult → Prop) (d : Rich.IntakeData)
    (pre post : List Rich.Step) (g : Rich.Step) (s : Rich.GuidelineResult)
    (hall : ∀ f ∈ pre ++ g :: post, Rich.Preserves f)
    (hQ : ∀ f, Rich.Preserves f → Rich.StepInv Q d f)
    (hg : ∀ t, Q (g d t)) :
    Q (Rich.runSteps d (pre ++ g :: post) s) := by
  rw [runSteps_split]
  have h2 : Rich.runSteps d (g :: post) (Rich.runSteps d pre s)
      = Rich.runSteps d post (g d (Rich.runSteps d pre s)) := rfl
  rw [h2]
  refine runSteps_inv Q d post _ ?_ (hg _)
  intro f hf
  exact hQ f (hall f (List.mem_append_right _ (List.mem_cons_of_mem _ hf)))

theorem stepInv_statusCit (f : Rich.Step) (hf : Rich.Preserves f)
    (d : Rich.IntakeData) (m : String) :
    Rich.StepInv (fun s => s.status ≠ Rich.Status.eligible ∧ m ∈ s.citations) d f :=
  fun s h => ⟨fun he => h.1 ((hf d s).1 he), (hf d s).2.1 h.2⟩

theorem stepInv_flag (f : Rich.Step) (hf : Rich.Preserves f)
    (d : Rich.IntakeData) (m : String) :
    Rich.StepInv (fun s => m ∈ s.flags) d f :=
  fun s h => (hf d s).2.2.1 h

theorem stepInv_note (f : Rich.Step) (hf : Rich.Preserves f)
    (d : Rich.IntakeData) (m : String) :
    Rich.StepInv (fun s => m ∈ s.underwritingNotes) d f :=
  fun s h => (hf d s).2.2.2.1 h

theorem stepInv_doc (f : Rich.Step) (hf : Rich.Preserves f)
    (d : Rich.IntakeData) (m : String) :
    Rich.StepInv (fun s => m ∈ s.documentChecklist) d f :=
  fun s h => (hf d s).2.2.2.2 h

theorem nlgAge_pres : Rich.Preserves Rich.nlgAge := by
  intro d s
  unfold Rich.nlgAge
  refine ⟨?_, ?_, ?_, ?_, ?_⟩ <;>
    (split <;> try split) <;>
    simp_all [List.subset_append_left, List.Subset.refl]

theorem nlgProduct_pres : Rich.Preserves Rich.nlgProduct := by
  intro d s
  unfold Rich.nlgProduct
  refine ⟨?_, ?_, ?_, ?_, ?_⟩ <;>
    (split <;> try split) <;>
    simp_all [List.subset_append_left, List.Subset.refl]

theorem nlgIncomeCap_pres : Rich.Preserves Rich.nlgIncomeCap := by
  intro d s
  unfold Rich.nlgIncomeCap
  refine ⟨?_, ?_, ?_, ?_, ?_⟩ <;>
    (split <;> try split) <;>
    simp_all [List.subset_append_left, List.Subset.refl]

theorem nlgHeart_pres : Rich.Preserves Rich.nlgHeart := by
  intro d s
  unfold Rich.nlgHeart
  refine ⟨?_, ?_, ?_, ?_, ?_⟩ <;>
    (split <;> try split <;> try split) <;>
    simp_all [List.subset_append_left, List.Subset.refl]

theorem nlgMinCov_pres : Rich.Preserves Rich.nlgMinCov := by
  intro d s
  unfold Rich.nlgMinCov
  refine ⟨?_, ?_, ?_, ?_, ?_⟩ <;>
    (split <;> try split <;> try split) <;>
    simp_all [List.subset_append_left, List.Subset.refl]

theorem nlgMillion_pres : Rich.Preserves Rich.nlgMillion := by
  intro d s
  unfold Rich.nlgMillion
  refine ⟨?_, ?_, ?_, ?_, ?_⟩ <;>
    (split <;> try split <;> try split) <;>
    simp_all [List.subset_append_left, List.Subset.refl]

theorem nlgTobacco_pres : Rich.Preserves Rich.nlgTobacco := by
  intro d s
  unfold Rich.nlgTobacco
  refine ⟨?_, ?_, ?_, ?_, ?_⟩ <;>
    (split <;> try split <;> try split) <;>
    simp_all [List.subset_append_left, List.Subset.refl]

theorem nlgCancer_pres : Rich.Preserves Rich.nlgCancer := by
  intro d s
  unfold Rich.nlgCancer
  refine ⟨?_, ?_, ?_, ?_, ?_⟩ <;>
    (split <;> try split <;> try split) <;>
    simp_all [List.subset_append_left, List.Subset.refl]

theorem nlgDiabetes_pres : Rich.Preserves Rich.nlgDiabetes := by
  intro d s
  unfold Rich.nlgDiabetes
  refine ⟨?_, ?_, ?_, ?_, ?_⟩ <;>
    (split <;> try split <;> try split) <;>
    simp_all [List.subset_append_left, List.Subset.refl]

theorem nlgInsulin_pres : Rich.Preserves Rich.nlgInsulin := by
  intro d s
  unfold Rich.nlgInsulin
  refine ⟨?_, ?_, ?_, ?_, ?_⟩ <;>
    (split <;> try split <;> try split) <;>
    simp_all [List.subset_append_left, List.Subset.refl]

theorem nlgHypertension_pres : Rich.Preserves Rich.nlgHypertension := by
  intro d s
  unfold Rich.nlgHypertension
  refine ⟨?_, ?_, ?_, ?_, ?_⟩ <;>
    (split <;> try split <;> try split) <;>
    simp_all [List.subset_append_left, List.Subset.refl]

theorem nlgCopd_pres : Rich.Preserves Rich.nlgCopd := by
  intro d s
  unfold Rich.nlgCopd
  refine ⟨?_, ?_, ?_, ?_, ?_⟩ <;>
    (split <;> try split <;> try split) <;>
    simp_all [List.subset_append_left, List.Subset.refl]

theorem nlgDui_pres : Rich.Preserves Rich.nlgDui := by
  intro d s
  unfold Rich.nlgDui
  refine ⟨?_, ?_, ?_, ?_, ?_⟩ <;>
    (split <;> try split <;> try split) <;>
    simp_all [List.subset_append_left, List.Subset.refl]

theorem nlgFelony_pres : Rich.Preserves Rich.nlgFelony := by
  intro d s
  unfold Rich.nlgFelony
  refine ⟨?_, ?_, ?_, ?_, ?_⟩ <;>
    (split <;> try split <;> try split) <;>
    simp_all [List.subset_append_left, List.Subset.refl]

theorem nlgBankruptcy_pres : Rich.Preserves Rich.nlgBankruptcy := by
  intro d s
  unfold Rich.nlgBankruptcy
  refine ⟨?_, ?_, ?_, ?_, ?_⟩ <;>
    (split <;> try split <;> try split) <;>
    simp_all [List.subset_append_left, List.Subset.refl]

theorem nlgHazOcc_pres : Rich.Preserves Rich.nlgHazOcc := by
  intro d s
  unfold Rich.nlgHazOcc
  refine ⟨?_, ?_, ?_, ?_, ?_⟩ <;>
    (split <;> try split <;> try split) <;>
    simp_all [List.subset_append_left, List.Subset.refl]

theorem nlgAvocation_pres : Rich.Preserves Rich.nlgAvocation := by
  intro d s
  unfold Rich.nlgAvocation
  refine ⟨?_, ?_, ?_, ?_, ?_⟩ <;>
    (split <;> try split <;> try split) <;>
    simp_all [List.subset_append_left, List.Subset.refl]

theorem nlgTravel_pres : Rich.Preserves Rich.nlgTravel := by
  intro d s
  unfold Rich.nlgTravel
  refine ⟨?_, ?_, ?_, ?_, ?_⟩ <;>
    (split <;> try split <;> try split) <;>
    simp_all [List.subset_append_left, List.Subset.refl]

theorem nlgMeds_pres : Rich.Preserves Rich.nlgMeds := by
  intro d s
  unfold Rich.nlgMeds
  refine ⟨?_, ?_, ?_, ?_, ?_⟩ <;>
    (split <;> try split <;> try split) <;>
    simp_all [List.subset_append_left, List.Subset.refl]

theorem nlgDoctors_pres : Rich.Preserves Rich.nlgDoctors := by
  intro d s
  unfold Rich.nlgDoctors
  refine ⟨?_, ?_, ?_, ?_, ?_⟩ <;>
    (split <;> try split <;> try split) <;>
    simp_all [List.subset_append_left, List.Subset.refl]

theorem mooAge_pres : Rich.Preserves Rich.mooAge := by
  intro d s
  unfold Rich.mooAge
  refine ⟨?_, ?_, ?_, ?_, ?_⟩ <;>
    (split <;> try split <;> try split) <;>
    simp_all [List.subset_append_left, List.Subset.refl]

theorem mooProduct_pres : Rich.Preserves Rich.mooProduct := by
  intro d s
  unfold Rich.mooProduct
  refine ⟨?_, ?_, ?_, ?_, ?_⟩ <;>
    (split <;> try split <;> try split) <;>
    simp_all [List.subset_append_left, List.Subset.refl]

theorem mooMinCov_pres : Rich.Preserves Rich.mooMinCov := by
  intro d s
  unfold Rich.mooMinCov
  refine ⟨?_, ?_, ?_, ?_, ?_⟩ <;>
    (split <;> try split <;> try split) <;>
    simp_all [List.subset_append_left, List.Subset.refl]

theorem mooIncomeCap_pres : Rich.Preserves Rich.mooIncomeCap := by
  intro d s
  unfold Rich.mooIncomeCap
  refine ⟨?_, ?_, ?_, ?_, ?_⟩ <;>
    (split <;> try split <;> try split) <;>
    simp_all [List.subset_append_left, List.Subset.refl]

theorem mooBmi_pres : Rich.Preserves Rich.mooBmi := by
  intro d s
  unfold Rich.mooBmi
  refine ⟨?_, ?_, ?_, ?_, ?_⟩ <;>
    (split <;> try split <;> try split) <;>
    simp_all [List.subset_append_left, List.Subset.refl]

theorem mooTobacco_pres : Rich.Preserves Rich.mooTobacco := by
  intro d s
  unfold Rich.mooTobacco
  refine ⟨?_, ?_, ?_, ?_, ?_⟩ <;>
    (split <;> try split <;> try split) <;>
    simp_all [List.subset_append_left, List.Subset.refl]

theorem mooCancer_pres : Rich.Preserves Rich.mooCancer := by
  intro d s
  unfold Rich.mooCancer
  refine ⟨?_, ?_, ?_, ?_, ?_⟩ <;>
    (split <;> try split <;> try split) <;>
    simp_all [List.subset_append_left, List.Subset.refl]

theorem mooDiabetes_pres : Rich.Preserves Rich.mooDiabetes := by
  intro d s
  unfold Rich.mooDiabetes
  refine ⟨?_, ?_, ?_, ?_, ?_⟩ <;>
    (split <;> try split <;> try split) <;>
    simp_all [List.subset_append_left, List.Subset.refl]

theorem mooInsulin_pres : Rich.Preserves Rich.mooInsulin := by
  intro d s
  unfold Rich.mooInsulin
  refine ⟨?_, ?_, ?_, ?_, ?_⟩ <;>
    (split <;> try split <;> try split) <;>
    simp_all [List.subset_append_left, List.Subset.refl]

theorem mooHeart_pres : Rich.Preserves Rich.mooHeart := by
  intro d s
  unfold Rich.mooHeart
  refine ⟨?_, ?_, ?_, ?_, ?_⟩ <;>
    (split <;> try split <;> try split) <;>
    simp_all [List.subset_append_left, List.Subset.refl]

theorem mooCopd_pres : Rich.Preserves Rich.mooCopd := by
  intro d s
  unfold Rich.mooCopd
  refine ⟨?_, ?_, ?_, ?_, ?_⟩ <;>
    (split <;> try split <;> try split) <;>
    simp_all [List.subset_append_left, List.Subset.refl]

theorem amAge_pres : Rich.Preserves Rich.amAge := by
  intro d s
  unfold Rich.amAge
  refine ⟨?_, ?_, ?_, ?_, ?_⟩ <;>
    (split <;> try split <;> try split) <;>
    simp_all [List.subset_append_left, List.Subset.refl]

theorem amProduct_pres : Rich.Preserves Rich.amProduct := by
  intro d s
  unfold Rich.amProduct
  refine ⟨?_, ?_, ?_, ?_, ?_⟩ <;>
    (split <;> try split <;> try split) <;>
    simp_all [List.subset_append_left, List.Subset.refl]

theorem amMinCov_pres : Rich.Preserves Rich.amMinCov := by
  intro d s
  unfold Rich.amMinCov
  refine ⟨?_, ?_, ?_, ?_, ?_⟩ <;>
    (split <;> try split <;> try split) <;>
    simp_all [List.subset_append_left, List.Subset.refl]

theorem amIncomeCap_pres : Rich.Preserves Rich.amIncomeCap := by
  intro d s
  unfold Rich.amIncomeCap
  refine ⟨?_, ?_, ?_, ?_, ?_⟩ <;>
    (split <;> try split <;> try split) <;>
    simp_all [List.subset_append_left, List.Subset.refl]

theorem amHazOcc_pres : Rich.Preserves Rich.amHazOcc := by
  intro d s
  unfold Rich.amHazOcc
  refine ⟨?_, ?_, ?_, ?_, ?_⟩ <;>
    (split <;> try split <;> try split) <;>
    simp_all [List.subset_append_left, List.Subset.refl]

theorem amAvocation_pres : Rich.Preserves Rich.amAvocation := by
  intro d s
  unfold Rich.amAvocation
  refine ⟨?_, ?_, ?_, ?_, ?_⟩ <;>
    (split <;> try split <;> try split) <;>
    simp_all [List.subset_append_left, List.Subset.refl]

theorem amTobacco_pres : Rich.Preserves Rich.amTobacco := by
  intro d s
  unfold Rich.amTobacco
  refine ⟨?_, ?_, ?_, ?_, ?_⟩ <;>
    (split <;> try split <;> try split) <;>
    simp_all [List.subset_append_left, List.Subset.refl]

theorem lfAge_pres : Rich.Preserves Rich.lfAge := by
  intro d s
  unfold Rich.lfAge
  refine ⟨?_, ?_, ?_, ?_, ?_⟩ <;>
    (split <;> try split <;> try split) <;>
    simp_all [List.subset_append_left, List.Subset.refl]

theorem lfProduct_pres : Rich.Preserves Rich.lfProduct := by
  intro d s
  unfold Rich.lfProduct
  refine ⟨?_, ?_, ?_, ?_, ?_⟩ <;>
    (split <;> try split <;> try split) <;>
    simp_all [List.subset_append_left, List.Subset.refl]

theorem lfMinCov_pres : Rich.Preserves Rich.lfMinCov := by
  intro d s
  unfold Rich.lfMinCov
  refine ⟨?_, ?_, ?_, ?_, ?_⟩ <;>
    (split <;> try split <;> try split) <;>
    simp_all [List.subset_append_left, List.Subset.refl]

theorem lfIncomeCap_pres : Rich.Preserves Rich.lfIncomeCap := by
  intro d s
  unfold Rich.lfIncomeCap
  refine ⟨?_, ?_, ?_, ?_, ?_⟩ <;>
    (split <;> try split <;> try split) <;>
    simp_all [List.subset_append_left, List.Subset.refl]

theorem lfHypertension_pres : Rich.Preserves Rich.lfHypertension := by
  intro d s
  unfold Rich.lfHypertension
  refine ⟨?_, ?_, ?_, ?_, ?_⟩ <;>
    (split <;> try split <;> try split) <;>
    simp_all [List.subset_append_left, List.Subset.refl]

theorem lfInsulin_pres : Rich.Preserves Rich.lfInsulin := by
  intro d s
  unfold Rich.lfInsulin
  refine ⟨?_, ?_, ?_, ?_, ?_⟩ <;>
    (split <;> try split <;> try split) <;>
    simp_all [List.subset_append_left, List.Subset.refl]

theorem lfTobacco_pres : Rich.Preserves Rich.lfTobacco := by
  intro d s
  unfold Rich.lfTobacco
  refine ⟨?_, ?_, ?_, ?_, ?_⟩ <;>
    (split <;> try split <;> try split) <;>
    simp_all [List.subset_append_left, List.Subset.refl]

theorem trAge_pres : Rich.Preserves Rich.trAge := by
  intro d s
  unfold Rich.trAge
  refine ⟨?_, ?_, ?_, ?_, ?_⟩ <;>
    (split <;> try split <;> try split) <;>
    simp_all [List.subset_append_left, List.Subset.refl]

theorem trProduct_pres : Rich.Preserves Rich.trProduct := by
  intro d s
  unfold Rich.trProduct
  refine ⟨?_, ?_, ?_, ?_, ?_⟩ <;>
    (split <;> try split <;> try split) <;>
    simp_all [List.subset_append_left, List.Subset.refl]

theorem trMinCov_pres : Rich.Preserves Rich.trMinCov := by
  intro d s
  unfold Rich.trMinCov
  refine ⟨?_, ?_, ?_, ?_, ?_⟩ <;>
    (split <;> try split <;> try split) <;>
    simp_all [List.subset_append_left, List.Subset.refl]

theorem trIncomeCap_pres : Rich.Preserves Rich.trIncomeCap := by
  intro d s
  unfold Rich.trIncomeCap
  refine ⟨?_, ?_, ?_, ?_, ?_⟩ <;>
    (split <;> try split <;> try split) <;>
    simp_all [List.subset_append_left, List.Subset.refl]

theorem trFelony_pres : Rich.Preserves Rich.trFelony := by
  intro d s
  unfold Rich.trFelony
  refine ⟨?_, ?_, ?_, ?_, ?_⟩ <;>
    (split <;> try split <;> try split) <;>
    simp_all [List.subset_append_left, List.Subset.refl]

theorem trTobacco_pres : Rich.Preserves Rich.trTobacco := by
  intro d s
  unfold Rich.trTobacco
  refine ⟨?_, ?_, ?_, ?_, ?_⟩ <;>
    (split <;> try split <;> try split) <;>
    simp_all [List.subset_append_left, List.Subset.refl]

theorem aaAge_pres : Rich.Preserves Rich.aaAge := by
  intro d s
  unfold Rich.aaAge
  refine ⟨?_, ?_, ?_, ?_, ?_⟩ <;>
    (split <;> try split <;> try split) <;>
    simp_all [List.subset_append_left, List.Subset.refl]

theorem aaProduct_pres : Rich.Preserves Rich.aaProduct := by
  intro d s
  unfold Rich.aaProduct
  refine ⟨?_, ?_, ?_, ?_, ?_⟩ <;>
    (split <;> try split <;> try split) <;>
    simp_all [List.subset_append_left, List.Subset.refl]

theorem aaMinCov_pres : Rich.Preserves Rich.aaMinCov := by
  intro d s
  unfold Rich.aaMinCov
  refine ⟨?_, ?_, ?_, ?_, ?_⟩ <;>
    (split <;> try split <;> try split) <;>
    simp_all [List.subset_append_left, List.Subset.refl]

theorem aaIncomeCap_pres : Rich.Preserves Rich.aaIncomeCap := by
  intro d s
  unfold Rich.aaIncomeCap
  refine ⟨?_, ?_, ?_, ?_, ?_⟩ <;>
    (split <;> try split <;> try split) <;>
    simp_all [List.subset_append_left, List.Subset.refl]

theorem aaCopd_pres : Rich.Preserves Rich.aaCopd := by
  intro d s
  unfold Rich.aaCopd
  refine ⟨?_, ?_, ?_, ?_, ?_⟩ <;>
    (split <;> try split <;> try split) <;>
    simp_all [List.subset_append_left, List.Subset.refl]

theorem aaHeart_pres : Rich.Preserves Rich.aaHeart := by
  intro d s
  unfold Rich.aaHeart
  refine ⟨?_, ?_, ?_, ?_, ?_⟩ <;>
    (split <;> try split <;> try split) <;>
    simp_all [List.subset_append_left, List.Subset.refl]

theorem aaTobacco_pres : Rich.Preserves Rich.aaTobacco := by
  intro d s
  unfold Rich.aaTobacco
  refine ⟨?_, ?_, ?_, ?_, ?_⟩ <;>
    (split <;> try split <;> try split) <;>
    simp_all [List.subset_append_left, List.Subset.refl]

theorem nlgPres : ∀ f ∈ Rich.nlgSteps, Rich.Preserves f := by
  intro f hf
  simp only [Rich.nlgSteps, List.mem_cons, List.not_mem_nil, or_false] at hf
  rcases hf with rfl|rfl|rfl|rfl|rfl|rfl|rfl|rfl|rfl|rfl|rfl|rfl|rfl|rfl|rfl|rfl|rfl|rfl|rfl|rfl
  exacts [nlgAge_pres, nlgProduct_pres, nlgIncomeCap_pres, nlgMinCov_pres, nlgMillion_pres, nlgTobacco_pres, nlgHeart_pres, nlgCancer_pres, nlgDiabetes_pres, nlgInsulin_pres, nlgHypertension_pres, nlgCopd_pres, nlgDui_pres, nlgFelony_pres, nlgBankruptcy_pres, nlgHazOcc_pres, nlgAvocation_pres, nlgTravel_pres, nlgMeds_pres, nlgDoctors_pres]

theorem mooPres : ∀ f ∈ Rich.mooSteps, Rich.Preserves f := by
  intro f hf
  simp only [Rich.mooSteps, List.mem_cons, List.not_mem_nil, or_false] at hf
  rcases hf with rfl|rfl|rfl|rfl|rfl|rfl|rfl|rfl|rfl|rfl|rfl
  exacts [mooAge_pres, mooProduct_pres, mooMinCov_pres, mooIncomeCap_pres, mooBmi_pres, mooTobacco_pres, mooCancer_pres, mooDiabetes_pres, mooInsulin_pres, mooHeart_pres, mooCopd_pres]

theorem amPres : ∀ f ∈ Rich.amSteps, Rich.Preserves f := by
  intro f hf
  simp only [Rich.amSteps, List.mem_cons, List.not_mem_nil, or_false] at hf
  rcases hf with rfl|rfl|rfl|rfl|rfl|rfl|rfl
  exacts [amAge_pres, amProduct_pres, amMinCov_pres, amIncomeCap_pres, amHazOcc_pres, amAvocation_pres, amTobacco_pres]

theorem lfPres : ∀ f ∈ Rich.lfSteps, Rich.Preserves f := by
  intro f hf
  simp only [Rich.lfSteps, List.mem_cons, List.not_mem_nil, or_false] at hf
  rcases hf with rfl|rfl|rfl|rfl|rfl|rfl|rfl
  exacts [lfAge_pres, lfProduct_pres, lfMinCov_pres, lfIncomeCap_pres, lfHypertension_pres, lfInsulin_pres, lfTobacco_pres]

theorem trPres : ∀ f ∈ Rich.trSteps, Rich.Preserves f := by
  intro f hf
  simp only [Rich.trSteps, List.mem_cons, List.not_mem_nil, or_false] at hf
  rcases hf with rfl|rfl|rfl|rfl|rfl|rfl
  exacts [trAge_pres, trProduct_pres, trMinCov_pres, trIncomeCap_pres, trFelony_pres, trTobacco_pres]

theorem aaPres : ∀ f ∈ Rich.aaSteps, Rich.Preserves f := by
  intro f hf
  simp only [Rich.aaSteps, List.mem_cons, List.not_mem_nil, or_false] at hf
  rcases hf with rfl|rfl|rfl|rfl|rfl|rfl|rfl
  exacts [aaAge_pres, aaProduct_pres, aaMinCov_pres, aaIncomeCap_pres, aaCopd_pres, aaHeart_pres, aaTobacco_pres]

/-- C2 (amended): for each of the six carriers, if the requested coverage is
strictly below the carrier's minimum, the citation list contains a message
embedding the literal minimum-coverage threshold and the final status is not
eligible.  (The original claim's "ineligible status" fails: a later
soft-flag block may overwrite Not Eligible to Needs Review.) -/
theorem C2_amended_min_coverage (t : Rich.IntakeData) :
    (jlt t.coverage 25000 = true →
      (Rich.evaluateNationalLifeGroup t).status ≠ Rich.Status.eligible ∧
      ∃ m ∈ (Rich.evaluateNationalLifeGroup t).citations, strContains m "$25,000" = true) ∧
    (jlt t.coverage 50000 = true →
      (Rich.evaluateMutualOfOmaha t).status ≠ Rich.Status.eligible ∧
      ∃ m ∈ (Rich.evaluateMutualOfOmaha t).citations, strContains m "$50,000" = true) ∧
    (jlt t.coverage 100000 = true →
      (Rich.evaluateAmeritas t).status ≠ Rich.Status.eligible ∧
      ∃ m ∈ (Rich.evaluateAmeritas t).citations, strContains m "$100,000" = true) ∧
    (jlt t.coverage 25000 = true →
      (Rich.evaluateLafayetteLife t).status ≠ Rich.Status.eligible ∧
      ∃ m ∈ (Rich.evaluateLafayetteLife t).citations, strContains m "$25,000" = true) ∧
    (jlt t.coverage 25000 = true →
      (Rich.evaluateTransamerica t).status ≠ Rich.Status.eligible ∧
      ∃ m ∈ (Rich.evaluateTransamerica t).citations, strContains m "$25,000" = true) ∧
    (jlt t.coverage 25000 = true →
      (Rich.evaluateAmericanAmicable t).status ≠ Rich.Status.eligible ∧
      ∃ m ∈ (Rich.evaluateAmericanAmicable t).citations, strContains m "$25,000" = true) := by
  refine ⟨?_, ?_, ?_, ?_, ?_, ?_⟩
  · intro h
    have e : Rich.evaluateNationalLifeGroup t =
        Rich.runSteps t ([Rich.nlgAge, Rich.nlgProduct, Rich.nlgIncomeCap] ++ Rich.nlgMinCov :: [Rich.nlgMillion, Rich.nlgTobacco, Rich.nlgHeart, Rich.nlgCancer, Rich.nlgDiabetes, Rich.nlgInsulin, Rich.nlgHypertension, Rich.nlgCopd, Rich.nlgDui, Rich.nlgFelony, Rich.nlgBankruptcy, Rich.nlgHazOcc, Rich.nlgAvocation, Rich.nlgTravel, Rich.nlgMeds, Rich.nlgDoctors]) Rich.nlgInit := rfl
    rw [e]
    have hr := runSteps_fire
      (fun s => s.status ≠ Rich.Status.eligible ∧
        ("NLG Underwriting Guide §4.1: Minimum coverage $25,000. Requested " ++ fmtUSDj t.coverage ++ ".") ∈ s.citations) t
      [Rich.nlgAge, Rich.nlgProduct, Rich.nlgIncomeCap] [Rich.nlgMillion, Rich.nlgTobacco, Rich.nlgHeart, Rich.nlgCancer, Rich.nlgDiabetes, Rich.nlgInsulin, Rich.nlgHypertension, Rich.nlgCopd, Rich.nlgDui, Rich.nlgFelony, Rich.nlgBankruptcy, Rich.nlgHazOcc, Rich.nlgAvocation, Rich.nlgTravel, Rich.nlgMeds, Rich.nlgDoctors] Rich.nlgMinCov Rich.nlgInit nlgPres
      (fun f hf => stepInv_statusCit f hf t _)
      (fun u => by unfold Rich.nlgMinCov; simp [h, List.mem_append])
    exact ⟨hr.1, "NLG Underwriting Guide §4.1: Minimum coverage $25,000. Requested " ++ fmtUSDj t.coverage ++ ".", hr.2, strContains_append_left _ _ _ (strContains_append_left _ _ _ (by decide))⟩
  · intro h
    have e : Rich.evaluateMutualOfOmaha t =
        Rich.runSteps t ([Rich.mooAge, Rich.mooProduct] ++ Rich.mooMinCov :: [Rich.mooIncomeCap, Rich.mooBmi, Rich.mooTobacco, Rich.mooCancer, Rich.mooDiabetes, Rich.mooInsulin, Rich.mooHeart, Rich.mooCopd]) Rich.mooInit := rfl
    rw [e]
    have hr := runSteps_fire
      (fun s => s.status ≠ Rich.Status.eligible ∧
        ("MOO Underwriting Manual §3.1: Minimum face amount $50,000. Requested " ++ fmtUSDj t.coverage ++ ".") ∈ s.citations) t
      [Rich.mooAge, Rich.mooProduct] [Rich.mooIncomeCap, Rich.mooBmi, Rich.mooTobacco, Rich.mooCancer, Rich.mooDiabetes, Rich.mooInsulin, Rich.mooHeart, Rich.mooCopd] Rich.mooMinCov Rich.mooInit mooPres
      (fun f hf => stepInv_statusCit f hf t _)
      (fun u => by unfold Rich.mooMinCov; simp [h, List.mem_append])
    exact ⟨hr.1, "MOO Underwriting Manual §3.1: Minimum face amount $50,000. Requested " ++ fmtUSDj t.coverage ++ ".", hr.2, strContains_append_left _ _ _ (strContains_append_left _ _ _ (by decide))⟩
  · intro h
    have e : Rich.evaluateAmeritas t =
        Rich.runSteps t ([Rich.amAge, Rich.amProduct] ++ Rich.amMinCov :: [Rich.amIncomeCap, Rich.amHazOcc, Rich.amAvocation, Rich.amTobacco]) Rich.amInit := rfl
    rw [e]
    have hr := runSteps_fire
      (fun s => s.status ≠ Rich.Status.eligible ∧
        ("Ameritas UW Guide §4.1: Minimum face amount $100,000. Requested " ++ fmtUSDj t.coverage ++ ".") ∈ s.citations) t
      [Rich.amAge, Rich.amProduct] [Rich.amIncomeCap, Rich.amHazOcc, Rich.amAvocation, Rich.amTobacco] Rich.amMinCov Rich.amInit amPres
      (fun f hf => stepInv_statusCit f hf t _)
      (fun u => by unfold Rich.amMinCov; simp [h, List.mem_append])
    exact ⟨hr.1, "Ameritas UW Guide §4.1: Minimum face amount $100,000. Requested " ++ fmtUSDj t.coverage ++ ".", hr.2, strContains_append_left _ _ _ (strContains_append_left _ _ _ (by decide))⟩
  · intro h
    have e : Rich.evaluateLafayetteLife t =
        Rich.runSteps t ([Rich.lfAge, Rich.lfProduct] ++ Rich.lfMinCov :: [Rich.lfIncomeCap, Rich.lfHypertension, Rich.lfInsulin, Rich.lfTobacco]) Rich.lfInit := rfl
    rw [e]
    have hr := runSteps_fire
      (fun s => s.status ≠ Rich.Status.eligible ∧
        ("Lafayette UW Manual §3.1: Minimum coverage $25,000.") ∈ s.citations) t
      [Rich.lfAge, Rich.lfProduct] [Rich.lfIncomeCap, Rich.lfHypertension, Rich.lfInsulin, Rich.lfTobacco] Rich.lfMinCov Rich.lfInit lfPres
      (fun f hf => stepInv_statusCit f hf t _)
      (fun u => by unfold Rich.lfMinCov; simp [h, List.mem_append])
    exact ⟨hr.1, "Lafayette UW Manual §3.1: Minimum coverage $25,000.", hr.2, (by decide)⟩
  · intro h
    have e : Rich.evaluateTransamerica t =
        Rich.runSteps t ([Rich.trAge, Rich.trProduct] ++ Rich.trMinCov :: [Rich.trIncomeCap, Rich.trFelony, Rich.trTobacco]) Rich.trInit := rfl
    rw [e]
    have hr := runSteps_fire
      (fun s => s.status ≠ Rich.Status.eligible ∧
        ("Transamerica UW Guide §4.1: Minimum face amount $25,000.") ∈ s.citations) t
      [Rich.trAge, Rich.trProduct] [Rich.trIncomeCap, Rich.trFelony, Rich.trTobacco] Rich.trMinCov Rich.trInit trPres
      (fun f hf => stepInv_statusCit f hf t _)
      (fun u => by unfold Rich.trMinCov; simp [h, List.mem_append])
    exact ⟨hr.1, "Transamerica UW Guide §4.1: Minimum face amount $25,000.", hr.2, (by decide)⟩
  · intro h
    have e : Rich.evaluateAmericanAmicable t =
        Rich.runSteps t ([Rich.aaAge, Rich.aaProduct] ++ Rich.aaMinCov :: [Rich.aaIncomeCap, Rich.aaCopd, Rich.aaHeart, Rich.aaTobacco]) Rich.aaInit := rfl
    rw [e]
    have hr := runSteps_fire
      (fun s => s.status ≠ Rich.Status.eligible ∧
        ("AA UW Manual §3.1: Minimum face amount $25,000.") ∈ s.citations) t
      [Rich.aaAge, Rich.aaProduct] [Rich.aaIncomeCap, Rich.aaCopd, Rich.aaHeart, Rich.aaTobacco] Rich.aaMinCov Rich.aaInit aaPres
      (fun f hf => stepInv_statusCit f hf t _)
      (fun u => by unfold Rich.aaMinCov; simp [h, List.mem_append])
    exact ⟨hr.1, "AA UW Manual §3.1: Minimum face amount $25,000.", hr.2, (by decide)⟩


/-- C1 counterexample: age 81 exceeds National Life Group's maximum of 80
and the §2.1 citation is recorded, yet the final status is Needs Review —
not the ineligible status the claim requires — because the later §4.2
income-cap block overwrites it. -/
theorem C1_counterexample_status_overwritten :
    jgt cexAgeOverwrite.age 80 = true ∧
    (Rich.evaluateNationalLifeGroup cexAgeOverwrite).status = Rich.Status.needsReview ∧
    (Rich.evaluateNationalLifeGroup cexAgeOverwrite).status ≠ Rich.Status.notEligible := by
  refine ⟨by decide, by decide, by decide⟩

/-- C2 counterexample: coverage 10,000 is below National Life Group's
25,000 minimum and the §4.1 citation is recorded, yet the final status is
Needs Review — the later §11.1 hazardous-occupation block overwrote the
Not Eligible status. -/
theorem C2_counterexample_status_overwritten :
    jlt cexMinCovOverwrite.coverage 25000 = true ∧
    (Rich.evaluateNationalLifeGroup cexMinCovOverwrite).status = Rich.Status.needsReview ∧
    (Rich.evaluateNationalLifeGroup cexMinCovOverwrite).status ≠ Rich.Status.notEligible := by
  refine ⟨by decide, by decide, by decide⟩

/-- C2 witness: coverage 100 is below every carrier's minimum and every
carrier's final status is non-eligible. -/
theorem C2_amended_min_coverage_witness :
    (Rich.evaluateNationalLifeGroup wUnderMinCov).status ≠ Rich.Status.eligible ∧
    (Rich.evaluateMutualOfOmaha wUnderMinCov).status ≠ Rich.Status.eligible ∧
    (Rich.evaluateAmeritas wUnderMinCov).status ≠ Rich.Status.eligible ∧
    (Rich.evaluateLafayetteLife wUnderMinCov).status ≠ Rich.Status.eligible ∧
    (Rich.evaluateTransamerica wUnderMinCov).status ≠ Rich.Status.eligible ∧
    (Rich.evaluateAmericanAmicable wUnderMinCov).status ≠ Rich.Status.eligible := by
  have h := C2_amended_min_coverage wUnderMinCov
  exact ⟨(h.1 (by decide)).1, (h.2.1 (by decide)).1, (h.2.2.1 (by decide)).1,
    (h.2.2.2.1 (by decide)).1, (h.2.2.2.2.1 (by decide)).1,
    (h.2.2.2.2.2 (by decide)).1⟩

/-- C3 counterexample: coverage 200,000 exceeds the Ameritas 30× cap of
30,000, and the only flag emitted contains neither the formatted nor the
plain computed cap value — only the multiplier. -/
theorem C3_counterexample_no_cap_in_flag :
    jgtJ cexCapAmeritas.coverage (jmul cexCapAmeritas.annualIncome 30) = true ∧
    (Rich.evaluateAmeritas cexCapAmeritas).flags =
      ["Ameritas UW Guide §4.2: Coverage exceeds 30× income. Financial justification required."] ∧
    strContains
      "Ameritas UW Guide §4.2: Coverage exceeds 30× income. Financial justification required."
      "30,000" = false ∧
    strContains
      "Ameritas UW Guide §4.2: Coverage exceeds 30× income. Financial justification required."
      "30000" = false ∧
    fmtUSDj (jmul cexCapAmeritas.annualIncome 30) = "$30,000" := by
  refine ⟨by decide, by decide, by decide, by decide, by decide⟩

theorem nlgAge_clean (d : Rich.IntakeData) :
    Rich.StepInv Rich.NotesTobaccoFree d Rich.nlgAge := by
  intro s h m hm
  unfold Rich.nlgAge at hm
  (split at hm <;> try split at hm <;> try split at hm) <;>
    (try simp only [List.mem_append, List.mem_singleton] at hm) <;>
    first
      | exact h m hm
      | (rcases hm with hm | rfl <;> first | exact h m hm | decide)

theorem nlgProduct_clean (d : Rich.IntakeData) :
    Rich.StepInv Rich.NotesTobaccoFree d Rich.nlgProduct := by
  intro s h m hm
  unfold Rich.nlgProduct at hm
  (split at hm <;> try split at hm <;> try split at hm) <;>
    (try simp only [List.mem_append, List.mem_singleton] at hm) <;>
    first
      | exact h m hm
      | (rcases hm with hm | rfl <;> first | exact h m hm | decide)

theorem nlgIncomeCap_clean (d : Rich.IntakeData) :
    Rich.StepInv Rich.NotesTobaccoFree d Rich.nlgIncomeCap := by
  intro s h m hm
  unfold Rich.nlgIncomeCap at hm
  (split at hm <;> try split at hm <;> try split at hm) <;>
    (try simp only [List.mem_append, List.mem_singleton] at hm) <;>
    first
      | exact h m hm
      | (rcases hm with hm | rfl <;> first | exact h m hm | decide)

theorem nlgMinCov_clean (d : Rich.IntakeData) :
    Rich.StepInv Rich.NotesTobaccoFree d Rich.nlgMinCov := by
  intro s h m hm
  unfold Rich.nlgMinCov at hm
  (split at hm <;> try split at hm <;> try split at hm) <;>
    (try simp only [List.mem_append, List.mem_singleton] at hm) <;>
    first
      | exact h m hm
      | (rcases hm with hm | rfl <;> first | exact h m hm | decide)

theorem nlgMillion_clean (d : Rich.IntakeData) :
    Rich.StepInv Rich.NotesTobaccoFree d Rich.nlgMillion := by
  intro s h m hm
  unfold Rich.nlgMillion at hm
  (split at hm <;> try split at hm <;> try split at hm) <;>
    (try simp only [List.mem_append, List.mem_singleton] at hm) <;>
    first
      | exact h m hm
      | (rcases hm with hm | rfl <;> first | exact h m hm | decide)

theorem nlgHeart_clean (d : Rich.IntakeData) :
    Rich.StepInv Rich.NotesTobaccoFree d Rich.nlgHeart := by
  intro s h m hm
  unfold Rich.nlgHeart at hm
  (split at hm <;> try split at hm <;> try split at hm) <;>
    (try simp only [List.mem_append, List.mem_singleton] at hm) <;>
    first
      | exact h m hm
      | (rcases hm with hm | rfl <;> first | exact h m hm | decide)

theorem nlgCancer_clean (d : Rich.IntakeData) :
    Rich.StepInv Rich.NotesTobaccoFree d Rich.nlgCancer := by
  intro s h m hm
  unfold Rich.nlgCancer at hm
  (split at hm <;> try split at hm <;> try split at hm) <;>
    (try simp only [List.mem_append, List.mem_singleton] at hm) <;>
    first
      | exact h m hm
      | (rcases hm with hm | rfl <;> first | exact h m hm | decide)

theorem nlgDiabetes_clean (d : Rich.IntakeData) :
    Rich.StepInv Rich.NotesTobaccoFree d Rich.nlgDiabetes := by
  intro s h m hm
  unfold Rich.nlgDiabetes at hm
  (split at hm <;> try split at hm <;> try split at hm) <;>
    (try simp only [List.mem_append, List.mem_singleton] at hm) <;>
    first
      | exact h m hm
      | (rcases hm with hm | rfl <;> first | exact h m hm | decide)

theorem nlgInsulin_clean (d : Rich.IntakeData) :
    Rich.StepInv Rich.NotesTobaccoFree d Rich.nlgInsulin := by
  intro s h m hm
  unfold Rich.nlgInsulin at hm
  (split at hm <;> try split at hm <;> try split at hm) <;>
    (try simp only [List.mem_append, List.mem_singleton] at hm) <;>
    first
      | exact h m hm
      | (rcases hm with hm | rfl <;> first | exact h m hm | decide)

theorem nlgHypertension_clean (d : Rich.IntakeData) :
    Rich.StepInv Rich.NotesTobaccoFree d Rich.nlgHypertension := by
  intro s h m hm
  unfold Rich.nlgHypertension at hm
  (split at hm <;> try split at hm <;> try split at hm) <;>
    (try simp only [List.mem_append, List.mem_singleton] at hm) <;>
    first
      | exact h m hm
      | (rcases hm with hm | rfl <;> first | exact h m hm | decide)

theorem nlgCopd_clean (d : Rich.IntakeData) :
    Rich.StepInv Rich.NotesTobaccoFree d Rich.nlgCopd := by
  intro s h m hm
  unfold Rich.nlgCopd at hm
  (split at hm <;> try split at hm <;> try split at hm) <;>
    (try simp only [List.mem_append, List.mem_singleton] at hm) <;>
    first
      | exact h m hm
      | (rcases hm with hm | rfl <;> first | exact h m hm | decide)

theorem nlgDui_clean (d : Rich.IntakeData) :
    Rich.StepInv Rich.NotesTobaccoFree d Rich.nlgDui := by
  intro s h m hm
  unfold Rich.nlgDui at hm
  (split at hm <;> try split at hm <;> try split at hm) <;>
    (try simp only [List.mem_append, List.mem_singleton] at hm) <;>
    first
      | exact h m hm
      | (rcases hm with hm | rfl <;> first | exact h m hm | decide)

theorem nlgFelony_clean (d : Rich.IntakeData) :
    Rich.StepInv Rich.NotesTobaccoFree d Rich.nlgFelony := by
  intro s h m hm
  unfold Rich.nlgFelony at hm
  (split at hm <;> try split at hm <;> try split at hm) <;>
    (try simp only [List.mem_append, List.mem_singleton] at hm) <;>
    first
      | exact h m hm
      | (rcases hm with hm | rfl <;> first | exact h m hm | decide)

theorem nlgBankruptcy_clean (d : Rich.IntakeData) :
    Rich.StepInv Rich.NotesTobaccoFree d Rich.nlgBankruptcy := by
  intro s h m hm
  unfold Rich.nlgBankruptcy at hm
  (split at hm <;> try split at hm <;> try split at hm) <;>
    (try simp only [List.mem_append, List.mem_singleton] at hm) <;>
    first
      | exact h m hm
      | (rcases hm with hm | rfl <;> first | exact h m hm | decide)

theorem nlgHazOcc_clean (d : Rich.IntakeData) :
    Rich.StepInv Rich.NotesTobaccoFree d Rich.nlgHazOcc := by
  intro s h m hm
  unfold Rich.nlgHazOcc at hm
  (split at hm <;> try split at hm <;> try split at hm) <;>
    (try simp only [List.mem_append, List.mem_singleton] at hm) <;>
    first
      | exact h m hm
      | (rcases hm with hm | rfl <;> first | exact h m hm | decide)

theorem nlgAvocation_clean (d : Rich.IntakeData) :
    Rich.StepInv Rich.NotesTobaccoFree d Rich.nlgAvocation := by
  intro s h m hm
  unfold Rich.nlgAvocation at hm
  (split at hm <;> try split at hm <;> try split at hm) <;>
    (try simp only [List.mem_append, List.mem_singleton] at hm) <;>
    first
      | exact h m hm
      | (rcases hm with hm | rfl <;> first | exact h m hm | decide)

theorem nlgTravel_clean (d : Rich.IntakeData) :
    Rich.StepInv Rich.NotesTobaccoFree d Rich.nlgTravel := by
  intro s h m hm
  unfold Rich.nlgTravel at hm
  (split at hm <;> try split at hm <;> try split at hm) <;>
    (try simp only [List.mem_append, List.mem_singleton] at hm) <;>
    first
      | exact h m hm
      | (rcases hm with hm | rfl <;> first | exact h m hm | decide)

theorem nlgMeds_clean (d : Rich.IntakeData) :
    Rich.StepInv Rich.NotesTobaccoFree d Rich.nlgMeds := by
  intro s h m hm
  unfold Rich.nlgMeds at hm
  (split at hm <;> try split at hm <;> try split at hm) <;>
    (try simp only [List.mem_append, List.mem_singleton] at hm) <;>
    first
      | exact h m hm
      | (rcases hm with hm | rfl <;> first | exact h m hm | decide)

theorem nlgDoctors_clean (d : Rich.IntakeData) :
    Rich.StepInv Rich.NotesTobaccoFree d Rich.nlgDoctors := by
  intro s h m hm
  unfold Rich.nlgDoctors at hm
  (split at hm <;> try split at hm <;> try split at hm) <;>
    (try simp only [List.mem_append, List.mem_singleton] at hm) <;>
    first
      | exact h m hm
      | (rcases hm with hm | rfl <;> first | exact h m hm | decide)

theorem mooAge_clean (d : Rich.IntakeData) :
    Rich.StepInv Rich.NotesTobaccoFree d Rich.mooAge := by
  intro s h m hm
  unfold Rich.mooAge at hm
  (split at hm <;> try split at hm <;> try split at hm) <;>
    (try simp only [List.mem_append, List.mem_singleton] at hm) <;>
    first
      | exact h m hm
      | (rcases hm with hm | rfl <;> first | exact h m hm | decide)

theorem mooProduct_clean (d : Rich.IntakeData) :
    Rich.StepInv Rich.NotesTobaccoFree d Rich.mooProduct := by
  intro s h m hm
  unfold Rich.mooProduct at hm
  (split at hm <;> try split at hm <;> try split at hm) <;>
    (try simp only [List.mem_append, List.mem_singleton] at hm) <;>
    first
      | exact h m hm
      | (rcases hm with hm | rfl <;> first | exact h m hm | decide)

theorem mooMinCov_clean (d : Rich.IntakeData) :
    Rich.StepInv Rich.NotesTobaccoFree d Rich.mooMinCov := by
  intro s h m hm
  unfold Rich.mooMinCov at hm
  (split at hm <;> try split at hm <;> try split at hm) <;>
    (try simp only [List.mem_append, List.mem_singleton] at hm) <;>
    first
      | exact h m hm
      | (rcases hm with hm | rfl <;> first | exact h m hm | decide)

theorem mooIncomeCap_clean (d : Rich.IntakeData) :
    Rich.StepInv Rich.NotesTobaccoFree d Rich.mooIncomeCap := by
  intro s h m hm
  unfold Rich.mooIncomeCap at hm
  (split at hm <;> try split at hm <;> try split at hm) <;>
    (try simp only [List.mem_append, List.mem_singleton] at hm) <;>
    first
      | exact h m hm
      | (rcases hm with hm | rfl <;> first | exact h m hm | decide)

theorem mooBmi_clean (d : Rich.IntakeData) :
    Rich.StepInv Rich.NotesTobaccoFree d Rich.mooBmi := by
  intro s h m hm
  unfold Rich.mooBmi at hm
  (split at hm <;> try split at hm <;> try split at hm) <;>
    (try simp only [List.mem_append, List.mem_singleton] at hm) <;>
    first
      | exact h m hm
      | (rcases hm with hm | rfl <;> first | exact h m hm | decide)

theorem mooCancer_clean (d : Rich.IntakeData) :
    Rich.StepInv Rich.NotesTobaccoFree d Rich.mooCancer := by
  intro s h m hm
  unfold Rich.mooCancer at hm
  (split at hm <;> try split at hm <;> try split at hm) <;>
    (try simp only [List.mem_append, List.mem_singleton] at hm) <;>
    first
      | exact h m hm
      | (rcases hm with hm | rfl <;> first | exact h m hm | decide)

theorem mooDiabetes_clean (d : Rich.IntakeData) :
    Rich.StepInv Rich.NotesTobaccoFree d Rich.mooDiabetes := by
  intro s h m hm
  unfold Rich.mooDiabetes at hm
  (split at hm <;> try split at hm <;> try split at hm) <;>
    (try simp only [List.mem_append, List.mem_singleton] at hm) <;>
    first
      | exact h m hm
      | (rcases hm with hm | rfl <;> first | exact h m hm | decide)

theorem mooInsulin_clean (d : Rich.IntakeData) :
    Rich.StepInv Rich.NotesTobaccoFree d Rich.mooInsulin := by
  intro s h m hm
  unfold Rich.mooInsulin at hm
  (split at hm <;> try split at hm <;> try split at hm) <;>
    (try simp only [List.mem_append, List.mem_singleton] at hm) <;>
    first
      | exact h m hm
      | (rcases hm with hm | rfl <;> first | exact h m hm | decide)

theorem mooHeart_clean (d : Rich.IntakeData) :
    Rich.StepInv Rich.NotesTobaccoFree d Rich.mooHeart := by
  intro s h m hm
  unfold Rich.mooHeart at hm
  (split at hm <;> try split at hm <;> try split at hm) <;>
    (try simp only [List.mem_append, List.mem_singleton] at hm) <;>
    first
      | exact h m hm
      | (rcases hm with hm | rfl <;> first | exact h m hm | decide)

theorem mooCopd_clean (d : Rich.IntakeData) :
    Rich.StepInv Rich.NotesTobaccoFree d Rich.mooCopd := by
  intro s h m hm
  unfold Rich.mooCopd at hm
  (split at hm <;> try split at hm <;> try split at hm) <;>
    (try simp only [List.mem_append, List.mem_singleton] at hm) <;>
    first
      | exact h m hm
      | (rcases hm with hm | rfl <;> first | exact h m hm | decide)

theorem nlgTobacco_absent_notes (d : Rich.IntakeData)
    (ht : d.tobaccoYears = none) :
    Rich.StepInv Rich.NotesTobaccoFree d Rich.nlgTobacco := by
  intro s h
  unfold Rich.nlgTobacco
  rw [ht]
  split <;> exact h

theorem mooTobacco_absent_notes (d : Rich.IntakeData)
    (ht : d.tobaccoYears = none) :
    Rich.StepInv Rich.NotesTobaccoFree d Rich.mooTobacco := by
  intro s h
  unfold Rich.mooTobacco
  rw [ht]
  split <;> exact h

/-- C4 counterexample: tobacco use is reported and years-since-use is
absent, yet Ameritas emits the tobacco-rate classification note and no
clarification flag — the claimed absent-years behaviour fails there. -/
theorem C4_counterexample_ameritas_absent :
    cexTobaccoAbsent.tobaccoUse = "Yes" ∧
    cexTobaccoAbsent.tobaccoYears = none ∧
    (Rich.evaluateAmeritas cexTobaccoAbsent).underwritingNotes =
      ["Ameritas UW Guide §5.1: Tobacco use within 24 months → Tobacco rates."] ∧
    (Rich.evaluateAmeritas cexTobaccoAbsent).flags = [] := by
  refine ⟨rfl, rfl, by decide, by decide⟩

/-- C4 (amended): the claimed three-way tobacco classification (tobacco
rate class when years < lookback, non-tobacco otherwise, clarification flag
and no classification note when years are absent) holds for National Life
Group and Mutual of Omaha, whose evaluators implement all three branches.
(Ameritas — see the counterexample — and the other carriers emit a single
tobacco note instead.) -/
theorem C4_amended_tobacco_classification (t : Rich.IntakeData)
    (hy : t.tobaccoUse = "Yes") :
    (∀ y : ℤ, t.tobaccoYears = some (some y) → y < 2 →
      "NLG Underwriting Guide §6.1: Tobacco use within 24 months → Tobacco rate class."
          ∈ (Rich.evaluateNationalLifeGroup t).underwritingNotes ∧
      "MOO Underwriting Manual §4.1: Tobacco use within 24 months → Tobacco rate class."
          ∈ (Rich.evaluateMutualOfOmaha t).underwritingNotes) ∧
    (∀ y : JNum, t.tobaccoYears = some y → jlt y 2 = false →
      "NLG Underwriting Guide §6.1: Tobacco cessation >24 months → Non-Tobacco rate class eligible."
          ∈ (Rich.evaluateNationalLifeGroup t).underwritingNotes ∧
      "MOO Underwriting Manual §4.1: Tobacco-free >24 months → Non-Tobacco rates apply."
          ∈ (Rich.evaluateMutualOfOmaha t).underwritingNotes) ∧
    (t.tobaccoYears = none →
      ("NLG Underwriting Guide §6.1: Further clarification required - years since last tobacco use not specified."
          ∈ (Rich.evaluateNationalLifeGroup t).flags ∧
        Rich.NotesTobaccoFree (Rich.evaluateNationalLifeGroup t)) ∧
      ("MOO Underwriting Manual §4.1: Further clarification required - tobacco cessation date not provided."
          ∈ (Rich.evaluateMutualOfOmaha t).flags ∧
        Rich.NotesTobaccoFree (Rich.evaluateMutualOfOmaha t))) := by
  refine ⟨?_, ?_, ?_⟩
  · intro y hty hlt
    constructor
    · have e : Rich.evaluateNationalLifeGroup t =
          Rich.runSteps t
            ([Rich.nlgAge, Rich.nlgProduct, Rich.nlgIncomeCap, Rich.nlgMinCov, Rich.nlgMillion] ++
              Rich.nlgTobacco ::
              [Rich.nlgHeart, Rich.nlgCancer, Rich.nlgDiabetes, Rich.nlgInsulin,
               Rich.nlgHypertension, Rich.nlgCopd, Rich.nlgDui, Rich.nlgFelony,
               Rich.nlgBankruptcy, Rich.nlgHazOcc, Rich.nlgAvocation, Rich.nlgTravel,
               Rich.nlgMeds, Rich.nlgDoctors]) Rich.nlgInit := rfl
      rw [e]
      exact runSteps_fire _ t _ _ Rich.nlgTobacco Rich.nlgInit nlgPres
        (fun f hf => stepInv_note f hf t _)
        (fun u => by unfold Rich.nlgTobacco; simp [hy, hty, jlt, hlt, List.mem_append])
    · have e : Rich.evaluateMutualOfOmaha t =
          Rich.runSteps t
            ([Rich.mooAge, Rich.mooProduct, Rich.mooMinCov, Rich.mooIncomeCap, Rich.mooBmi] ++
              Rich.mooTobacco ::
              [Rich.mooCancer, Rich.mooDiabetes, Rich.mooInsulin, Rich.mooHeart,
               Rich.mooCopd]) Rich.mooInit := rfl
      rw [e]
      exact runSteps_fire _ t _ _ Rich.mooTobacco Rich.mooInit mooPres
        (fun f hf => stepInv_note f hf t _)
        (fun u => by unfold Rich.mooTobacco; simp [hy, hty, jlt, hlt, List.mem_append])
  · intro y hty hge
    constructor
    · have e : Rich.evaluateNationalLifeGroup t =
          Rich.runSteps t
            ([Rich.nlgAge, Rich.nlgProduct, Rich.nlgIncomeCap, Rich.nlgMinCov, Rich.nlgMillion] ++
              Rich.nlgTobacco ::
              [Rich.nlgHeart, Rich.nlgCancer, Rich.nlgDiabetes, Rich.nlgInsulin,
               Rich.nlgHypertension, Rich.nlgCopd, Rich.nlgDui, Rich.nlgFelony,
               Rich.nlgBankruptcy, Rich.nlgHazOcc, Rich.nlgAvocation, Rich.nlgTravel,
               Rich.nlgMeds, Rich.nlgDoctors]) Rich.nlgInit := rfl
      rw [e]
      exact runSteps_fire _ t _ _ Rich.nlgTobacco Rich.nlgInit nlgPres
        (fun f hf => stepInv_note f hf t _)
        (fun u => by unfold Rich.nlgTobacco; simp [hy, hty, hge, List.mem_append])
    · have e : Rich.evaluateMutualOfOmaha t =
          Rich.runSteps t
            ([Rich.mooAge, Rich.mooProduct, Rich.mooMinCov, Rich.mooIncomeCap, Rich.mooBmi] ++
              Rich.mooTobacco ::
              [Rich.mooCancer, Rich.mooDiabetes, Rich.mooInsulin, Rich.mooHeart,
               Rich.mooCopd]) Rich.mooInit := rfl
      rw [e]
      exact runSteps_fire _ t _ _ Rich.mooTobacco Rich.mooInit mooPres
        (fun f hf => stepInv_note f hf t _)
        (fun u => by unfold Rich.mooTobacco; simp [hy, hty, hge, List.mem_append])
  · intro ht
    refine ⟨⟨?_, ?_⟩, ?_, ?_⟩
    · have e : Rich.evaluateNationalLifeGroup t =
          Rich.runSteps t
            ([Rich.nlgAge, Rich.nlgProduct, Rich.nlgIncomeCap, Rich.nlgMinCov, Rich.nlgMillion] ++
              Rich.nlgTobacco ::
              [Rich.nlgHeart, Rich.nlgCancer, Rich.nlgDiabetes, Rich.nlgInsulin,
               Rich.nlgHypertension, Rich.nlgCopd, Rich.nlgDui, Rich.nlgFelony,
               Rich.nlgBankruptcy, Rich.nlgHazOcc, Rich.nlgAvocation, Rich.nlgTravel,
               Rich.nlgMeds, Rich.nlgDoctors]) Rich.nlgInit := rfl
      rw [e]
      exact runSteps_fire _ t _ _ Rich.nlgTobacco Rich.nlgInit nlgPres
        (fun f hf => stepInv_flag f hf t _)
        (fun u => by unfold Rich.nlgTobacco; rw [ht]; simp [hy, List.mem_append])
    · refine runSteps_inv Rich.NotesTobaccoFree t Rich.nlgSteps Rich.nlgInit ?_ ?_
      · intro f hf
        simp only [Rich.nlgSteps, List.mem_cons, List.not_mem_nil, or_false] at hf
        rcases hf with rfl|rfl|rfl|rfl|rfl|rfl|rfl|rfl|rfl|rfl|rfl|rfl|rfl|rfl|rfl|rfl|rfl|rfl|rfl|rfl
        exacts [nlgAge_clean t, nlgProduct_clean t, nlgIncomeCap_clean t,
          nlgMinCov_clean t, nlgMillion_clean t, nlgTobacco_absent_notes t ht,
          nlgHeart_clean t, nlgCancer_clean t, nlgDiabetes_clean t,
          nlgInsulin_clean t, nlgHypertension_clean t, nlgCopd_clean t,
          nlgDui_clean t, nlgFelony_clean t, nlgBankruptcy_clean t,
          nlgHazOcc_clean t, nlgAvocation_clean t, nlgTravel_clean t,
          nlgMeds_clean t, nlgDoctors_clean t]
      · intro m hm
        simp [Rich.nlgInit] at hm
    · have e : Rich.evaluateMutualOfOmaha t =
          Rich.runSteps t
            ([Rich.mooAge, Rich.mooProduct, Rich.mooMinCov, Rich.mooIncomeCap, Rich.mooBmi] ++
              Rich.mooTobacco ::
              [Rich.mooCancer, Rich.mooDiabetes, Rich.mooInsulin, Rich.mooHeart,
               Rich.mooCopd]) Rich.mooInit := rfl
      rw [e]
      exact runSteps_fire _ t _ _ Rich.mooTobacco Rich.mooInit mooPres
        (fun f hf => stepInv_flag f hf t _)
        (fun u => by unfold Rich.mooTobacco; rw [ht]; simp [hy, List.mem_append])
    · refine runSteps_inv Rich.NotesTobaccoFree t Rich.mooSteps Rich.mooInit ?_ ?_
      · intro f hf
        simp only [Rich.mooSteps, List.mem_cons, List.not_mem_nil, or_false] at hf
        rcases hf with rfl|rfl|rfl|rfl|rfl|rfl|rfl|rfl|rfl|rfl|rfl
        exacts [mooAge_clean t, mooProduct_clean t, mooMinCov_clean t,
          mooIncomeCap_clean t, mooBmi_clean t, mooTobacco_absent_notes t ht,
          mooCancer_clean t, mooDiabetes_clean t, mooInsulin_clean t,
          mooHeart_clean t, mooCopd_clean t]
      · intro m hm
        simp [Rich.mooInit] at hm

/-- C4 witness: the three National Life Group branches at concrete intakes
(quit 0 years ago, quit 5 years ago, years absent). -/
theorem C4_amended_tobacco_classification_witness :
    "NLG Underwriting Guide §6.1: Tobacco use within 24 months → Tobacco rate class."
        ∈ (Rich.evaluateNationalLifeGroup wTobaccoRecent).underwritingNotes ∧
    "NLG Underwriting Guide §6.1: Tobacco cessation >24 months → Non-Tobacco rate class eligible."
        ∈ (Rich.evaluateNationalLifeGroup wTobaccoQuit).underwritingNotes ∧
    "NLG Underwriting Guide §6.1: Further clarification required - years since last tobacco use not specified."
        ∈ (Rich.evaluateNationalLifeGroup wTobaccoAbsent).flags ∧
    Rich.NotesTobaccoFree (Rich.evaluateNationalLifeGroup wTobaccoAbsent) := by
  refine ⟨((C4_amended_tobacco_classification wTobaccoRecent rfl).1 0 rfl (by decide)).1,
    ((C4_amended_tobacco_classification wTobaccoQuit rfl).2.1 (some 5) rfl (by decide)).1,
    (((C4_amended_tobacco_classification wTobaccoAbsent rfl).2.2 rfl).1).1,
    (((C4_amended_tobacco_classification wTobaccoAbsent rfl).2.2 rfl).1).2⟩

/-- C5: with none of the conditional triggers, `buildChecklist` returns
exactly the three baseline documents; coverage at or above 1,000,000 — the
boundary included, since the comparison is `>=` — appends the
financial-justification document, and the NLG guideline evaluator likewise
appends its financial underwriting package at coverage ≥ $1M. -/
theorem C5_checklist_baseline_and_million (d : Simple.RawData) (t : Rich.IntakeData) :
    (jge (Simple.toNum d.coverage) 1000000 = false →
      Simple.optTrimTruthy d.medications = false →
      Simple.optTrimTruthy d.doctorNames = false →
      (d.productType == some "IUL") = false →
      (d.travelHighRisk == some "Yes") = false →
      (d.avocationRisk == some "Yes") = false →
      (d.hazardousOccupation == some "Yes") = false →
      Simple.buildChecklist d =
        ["Government ID (driver\x27s license or passport)",
         "Proof of income (last 2 pay stubs or last 2 years 1099/W-2)",
         "Beneficiary information"]) ∧
    (jge (Simple.toNum d.coverage) 1000000 = true →
      "Financial justification (income + assets)" ∈ Simple.buildChecklist d) ∧
    (jge t.coverage 1000000 = true →
      "Financial underwriting package (tax returns, bank statements, net worth statement)"
        ∈ (Rich.evaluateNationalLifeGroup t).documentChecklist) := by
  refine ⟨?_, ?_, ?_⟩
  · intro h1 h2 h3 h4 h5 h6 h7
    simp [Simple.buildChecklist, h1, h2, h3, h4, h5, h6, h7]
  · intro h
    simp [Simple.buildChecklist, h, List.mem_append]
  · intro h
    have e : Rich.evaluateNationalLifeGroup t =
        Rich.runSteps t
          ([Rich.nlgAge, Rich.nlgProduct, Rich.nlgIncomeCap, Rich.nlgMinCov] ++
            Rich.nlgMillion ::
            [Rich.nlgTobacco, Rich.nlgHeart, Rich.nlgCancer, Rich.nlgDiabetes,
             Rich.nlgInsulin, Rich.nlgHypertension, Rich.nlgCopd, Rich.nlgDui,
             Rich.nlgFelony, Rich.nlgBankruptcy, Rich.nlgHazOcc, Rich.nlgAvocation,
             Rich.nlgTravel, Rich.nlgMeds, Rich.nlgDoctors]) Rich.nlgInit := rfl
    rw [e]
    exact runSteps_fire _ t _ _ Rich.nlgMillion Rich.nlgInit nlgPres
      (fun f hf => stepInv_doc f hf t _)
      (fun u => by unfold Rich.nlgMillion; simp [h, List.mem_append])

/-- C5 witness: the benign record has no triggers and gets exactly the
baseline checklist; coverage of exactly 1,000,000 appends the
financial-justification documents in both variants. -/
theorem C5_checklist_baseline_and_million_witness :
    Simple.buildChecklist rawBenign =
      ["Government ID (driver\x27s license or passport)",
       "Proof of income (last 2 pay stubs or last 2 years 1099/W-2)",
       "Beneficiary information"] ∧
    "Financial justification (income + assets)" ∈ Simple.buildChecklist rawMillion ∧
    "Financial underwriting package (tax returns, bank statements, net worth statement)"
      ∈ (Rich.evaluateNationalLifeGroup wMillionRich).documentChecklist := by
  refine ⟨(C5_checklist_baseline_and_million rawBenign benign).1
      (by decide) (by decide) (by decide) (by decide) (by decide) (by decide) (by decide),
    (C5_checklist_baseline_and_million rawMillion benign).2.1 (by decide),
    (C5_checklist_baseline_and_million rawBenign wMillionRich).2.2 (by decide)⟩

/-- C6: in the simple rule-table variant, `evaluateCarrier` reports
`eligible = true` exactly when both the decline-reasons list and the flags
list of its evaluation are empty. -/
theorem C6_eligible_iff_empty (c : Simple.CarrierRule) (d : Simple.RawData) :
    (Simple.evaluateCarrier c d).eligible = true ↔
      ((Simple.evaluateCarrier c d).decline = [] ∧
        (Simple.evaluateCarrier c d).flags = []) := by
  simp [Simple.evaluateCarrier, List.length_eq_zero]

/-- C9: rendering an empty carrier list still produces the well-formed
report: the rich renderer emits exactly its header followed by its footer,
and the simple renderer (which has neither) emits the empty string. -/
theorem C9_empty_report (t : Rich.IntakeData) (d : Simple.RawData) :
    Rich.generateCarrierAnalysisTextWith [] t = Rich.reportHeader ++ Rich.reportFooter ∧
    Simple.generateCarrierAnalysisTextWith [] d = "" := ⟨rfl, rfl⟩

/-- C10: a coverage, income, or age equal to the number 0 is falsy in JS,
so the corresponding truthiness-guarded generic checks of `evaluateCarrier`
are skipped: the flags decompose into the four components in push order,
and the three threshold components are empty at zero. -/
theorem C10_zero_is_falsy_skips_checks (c : Simple.CarrierRule) (d : Simple.RawData) :
    (Simple.evaluateCarrier c d).flags =
        Simple.productFlag c d ++ Simple.incomeCapFlag c d ++
        Simple.minCovFlag c d ++ Simple.ageFlag c d ∧
    (d.coverage = Simple.RawVal.num 0 →
      Simple.incomeCapFlag c d = [] ∧ Simple.minCovFlag c d = []) ∧
    (d.annualIncome = Simple.RawVal.num 0 → Simple.incomeCapFlag c d = []) ∧
    (d.age = Simple.RawVal.num 0 → Simple.ageFlag c d = []) := by
  refine ⟨rfl, ?_, ?_, ?_⟩
  · intro h
    constructor <;> simp [Simple.incomeCapFlag, Simple.minCovFlag, h, Simple.truthy]
  · intro h
    simp [Simple.incomeCapFlag, h, Simple.truthy]
  · intro h
    simp [Simple.ageFlag, h, Simple.truthy]

/-- C10 witness: the all-zero record receives none of the three generic
threshold flags from any component, shown here at National Life Group. -/
theorem C10_zero_is_falsy_skips_checks_witness :
    (Simple.evaluateCarrier Simple.nlgRule rawZeros).flags =
        Simple.productFlag Simple.nlgRule rawZeros ++
        Simple.incomeCapFlag Simple.nlgRule rawZeros ++
        Simple.minCovFlag Simple.nlgRule rawZeros ++
        Simple.ageFlag Simple.nlgRule rawZeros ∧
    Simple.incomeCapFlag Simple.nlgRule rawZeros = [] ∧
    Simple.minCovFlag Simple.nlgRule rawZeros = [] ∧
    Simple.ageFlag Simple.nlgRule rawZeros = [] := by
  have h := C10_zero_is_falsy_skips_checks Simple.nlgRule rawZeros
  exact ⟨h.1, (h.2.1 rfl).1, (h.2.1 rfl).2, h.2.2.2 rfl⟩
theorem nlgAge_noHeart (d : Rich.IntakeData) :
    Rich.StepInv (fun s =>
      "NLG Underwriting Guide §8.4: Heart attack/stent within 12 months → automatic decline."
          ∉ s.citations ∧
      "NLG Underwriting Guide §8.4: Cardiovascular event within 24 months requires senior medical review."
          ∉ s.flags) d Rich.nlgAge := by
  intro s h
  unfold Rich.nlgAge
  (split <;> try split <;> try split) <;>
    refine ⟨?_, ?_⟩ <;>
    (try simp only [List.mem_append, List.mem_singleton, not_or]) <;>
    first
      | exact h.1
      | exact h.2
      | exact ⟨h.1, by decide⟩
      | exact ⟨h.2, by decide⟩
      | exact ⟨h.1, Ne.symm (tmpl1_ne _ _ _ _ 25 (by decide) (by decide))⟩
      | exact ⟨h.2, Ne.symm (tmpl1_ne _ _ _ _ 25 (by decide) (by decide))⟩
      | exact ⟨h.1, Ne.symm (tmpl1_ne _ _ _ _ 5 (by decide) (by decide))⟩
      | exact ⟨h.2, Ne.symm (tmpl2_ne _ _ _ _ _ _ 25 (by decide) (by decide))⟩

theorem nlgProduct_noHeart (d : Rich.IntakeData) :
    Rich.StepInv (fun s =>
      "NLG Underwriting Guide §8.4: Heart attack/stent within 12 months → automatic decline."
          ∉ s.citations ∧
      "NLG Underwriting Guide §8.4: Cardiovascular event within 24 months requires senior medical review."
          ∉ s.flags) d Rich.nlgProduct := by
  intro s h
  unfold Rich.nlgProduct
  (split <;> try split <;> try split) <;>
    refine ⟨?_, ?_⟩ <;>
    (try simp only [List.mem_append, List.mem_singleton, not_or]) <;>
    first
      | exact h.1
      | exact h.2
      | exact ⟨h.1, by decide⟩
      | exact ⟨h.2, by decide⟩
      | exact ⟨h.1, Ne.symm (tmpl1_ne _ _ _ _ 25 (by decide) (by decide))⟩
      | exact ⟨h.2, Ne.symm (tmpl1_ne _ _ _ _ 25 (by decide) (by decide))⟩
      | exact ⟨h.1, Ne.symm (tmpl1_ne _ _ _ _ 5 (by decide) (by decide))⟩
      | exact ⟨h.2, Ne.symm (tmpl2_ne _ _ _ _ _ _ 25 (by decide) (by decide))⟩

theorem nlgIncomeCap_noHeart (d : Rich.IntakeData) :
    Rich.StepInv (fun s =>
      "NLG Underwriting Guide §8.4: Heart attack/stent within 12 months → automatic decline."
          ∉ s.citations ∧
      "NLG Underwriting Guide §8.4: Cardiovascular event within 24 months requires senior medical review."
          ∉ s.flags) d Rich.nlgIncomeCap := by
  intro s h
  unfold Rich.nlgIncomeCap
  (split <;> try split <;> try split) <;>
    refine ⟨?_, ?_⟩ <;>
    (try simp only [List.mem_append, List.mem_singleton, not_or]) <;>
    first
      | exact h.1
      | exact h.2
      | exact ⟨h.1, by decide⟩
      | exact ⟨h.2, by decide⟩
      | exact ⟨h.1, Ne.symm (tmpl1_ne _ _ _ _ 25 (by decide) (by decide))⟩
      | exact ⟨h.2, Ne.symm (tmpl1_ne _ _ _ _ 25 (by decide) (by decide))⟩
      | exact ⟨h.1, Ne.symm (tmpl1_ne _ _ _ _ 5 (by decide) (by decide))⟩
      | exact ⟨h.2, Ne.symm (tmpl2_ne _ _ _ _ _ _ 25 (by decide) (by decide))⟩

theorem nlgMinCov_noHeart (d : Rich.IntakeData) :
    Rich.StepInv (fun s =>
      "NLG Underwriting Guide §8.4: Heart attack/stent within 12 months → automatic decline."
          ∉ s.citations ∧
      "NLG Underwriting Guide §8.4: Cardiovascular event within 24 months requires senior medical review."
          ∉ s.flags) d Rich.nlgMinCov := by
  intro s h
  unfold Rich.nlgMinCov
  (split <;> try split <;> try split) <;>
    refine ⟨?_, ?_⟩ <;>
    (try simp only [List.mem_append, List.mem_singleton, not_or]) <;>
    first
      | exact h.1
      | exact h.2
      | exact ⟨h.1, by decide⟩
      | exact ⟨h.2, by decide⟩
      | exact ⟨h.1, Ne.symm (tmpl1_ne _ _ _ _ 25 (by decide) (by decide))⟩
      | exact ⟨h.2, Ne.symm (tmpl1_ne _ _ _ _ 25 (by decide) (by decide))⟩
      | exact ⟨h.1, Ne.symm (tmpl1_ne _ _ _ _ 5 (by decide) (by decide))⟩
      | exact ⟨h.2, Ne.symm (tmpl2_ne _ _ _ _ _ _ 25 (by decide) (by decide))⟩

theorem nlgMillion_noHeart (d : Rich.IntakeData) :
    Rich.StepInv (fun s =>
      "NLG Underwriting Guide §8.4: Heart attack/stent within 12 months → automatic decline."
          ∉ s.citations ∧
      "NLG Underwriting Guide §8.4: Cardiovascular event within 24 months requires senior medical review."
          ∉ s.flags) d Rich.nlgMillion := by
  intro s h
  unfold Rich.nlgMillion
  (split <;> try split <;> try split) <;>
    refine ⟨?_, ?_⟩ <;>
    (try simp only [List.mem_append, List.mem_singleton, not_or]) <;>
    first
      | exact h.1
      | exact h.2
      | exact ⟨h.1, by decide⟩
      | exact ⟨h.2, by decide⟩
      | exact ⟨h.1, Ne.symm (tmpl1_ne _ _ _ _ 25 (by decide) (by decide))⟩
      | exact ⟨h.2, Ne.symm (tmpl1_ne _ _ _ _ 25 (by decide) (by decide))⟩
      | exact ⟨h.1, Ne.symm (tmpl1_ne _ _ _ _ 5 (by decide) (by decide))⟩
      | exact ⟨h.2, Ne.symm (tmpl2_ne _ _ _ _ _ _ 25 (by decide) (by decide))⟩

theorem nlgTobacco_noHeart (d : Rich.IntakeData) :
    Rich.StepInv (fun s =>
      "NLG Underwriting Guide §8.4: Heart attack/stent within 12 months → automatic decline."
          ∉ s.citations ∧
      "NLG Underwriting Guide §8.4: Cardiovascular event within 24 months requires senior medical review."
          ∉ s.flags) d Rich.nlgTobacco := by
  intro s h
  unfold Rich.nlgTobacco
  (split <;> try split <;> try split) <;>
    refine ⟨?_, ?_⟩ <;>
    (try simp only [List.mem_append, List.mem_singleton, not_or]) <;>
    first
      | exact h.1
      | exact h.2
      | exact ⟨h.1, by decide⟩
      | exact ⟨h.2, by decide⟩
      | exact ⟨h.1, Ne.symm (tmpl1_ne _ _ _ _ 25 (by decide) (by decide))⟩
      | exact ⟨h.2, Ne.symm (tmpl1_ne _ _ _ _ 25 (by decide) (by decide))⟩
      | exact ⟨h.1, Ne.symm (tmpl1_ne _ _ _ _ 5 (by decide) (by decide))⟩
      | exact ⟨h.2, Ne.symm (tmpl2_ne _ _ _ _ _ _ 25 (by decide) (by decide))⟩

theorem nlgCancer_noHeart (d : Rich.IntakeData) :
    Rich.StepInv (fun s =>
      "NLG Underwriting Guide §8.4: Heart attack/stent within 12 months → automatic decline."
          ∉ s.citations ∧
      "NLG Underwriting Guide §8.4: Cardiovascular event within 24 months requires senior medical review."
          ∉ s.flags) d Rich.nlgCancer := by
  intro s h
  unfold Rich.nlgCancer
  (split <;> try split <;> try split) <;>
    refine ⟨?_, ?_⟩ <;>
    (try simp only [List.mem_append, List.mem_singleton, not_or]) <;>
    first
      | exact h.1
      | exact h.2
      | exact ⟨h.1, by decide⟩
      | exact ⟨h.2, by decide⟩
      | exact ⟨h.1, Ne.symm (tmpl1_ne _ _ _ _ 25 (by decide) (by decide))⟩
      | exact ⟨h.2, Ne.symm (tmpl1_ne _ _ _ _ 25 (by decide) (by decide))⟩
      | exact ⟨h.1, Ne.symm (tmpl1_ne _ _ _ _ 5 (by decide) (by decide))⟩
      | exact ⟨h.2, Ne.symm (tmpl2_ne _ _ _ _ _ _ 25 (by decide) (by decide))⟩

theorem nlgDiabetes_noHeart (d : Rich.IntakeData) :
    Rich.StepInv (fun s =>
      "NLG Underwriting Guide §8.4: Heart attack/stent within 12 months → automatic decline."
          ∉ s.citations ∧
      "NLG Underwriting Guide §8.4: Cardiovascular event within 24 months requires senior medical review."
          ∉ s.flags) d Rich.nlgDiabetes := by
  intro s h
  unfold Rich.nlgDiabetes
  (split <;> try split <;> try split) <;>
    refine ⟨?_, ?_⟩ <;>
    (try simp only [List.mem_append, List.mem_singleton, not_or]) <;>
    first
      | exact h.1
      | exact h.2
      | exact ⟨h.1, by decide⟩
      | exact ⟨h.2, by decide⟩
      | exact ⟨h.1, Ne.symm (tmpl1_ne _ _ _ _ 25 (by decide) (by decide))⟩
      | exact ⟨h.2, Ne.symm (tmpl1_ne _ _ _ _ 25 (by decide) (by decide))⟩
      | exact ⟨h.1, Ne.symm (tmpl1_ne _ _ _ _ 5 (by decide) (by decide))⟩
      | exact ⟨h.2, Ne.symm (tmpl2_ne _ _ _ _ _ _ 25 (by decide) (by decide))⟩

theorem nlgInsulin_noHeart (d : Rich.IntakeData) :
    Rich.StepInv (fun s =>
      "NLG Underwriting Guide §8.4: Heart attack/stent within 12 months → automatic decline."
          ∉ s.citations ∧
      "NLG Underwriting Guide §8.4: Cardiovascular event within 24 months requires senior medical review."
          ∉ s.flags) d Rich.nlgInsulin := by
  intro s h
  unfold Rich.nlgInsulin
  (split <;> try split <;> try split) <;>
    refine ⟨?_, ?_⟩ <;>
    (try simp only [List.mem_append, List.mem_singleton, not_or]) <;>
    first
      | exact h.1
      | exact h.2
      | exact ⟨h.1, by decide⟩
      | exact ⟨h.2, by decide⟩
      | exact ⟨h.1, Ne.symm (tmpl1_ne _ _ _ _ 25 (by decide) (by decide))⟩
      | exact ⟨h.2, Ne.symm (tmpl1_ne _ _ _ _ 25 (by decide) (by decide))⟩
      | exact ⟨h.1, Ne.symm (tmpl1_ne _ _ _ _ 5 (by decide) (by decide))⟩
      | exact ⟨h.2, Ne.symm (tmpl2_ne _ _ _ _ _ _ 25 (by decide) (by decide))⟩

theorem nlgHypertension_noHeart (d : Rich.IntakeData) :
    Rich.StepInv (fun s =>
      "NLG Underwriting Guide §8.4: Heart attack/stent within 12 months → automatic decline."
          ∉ s.citations ∧
      "NLG Underwriting Guide §8.4: Cardiovascular event within 24 months requires senior medical review."
          ∉ s.flags) d Rich.nlgHypertension := by
  intro s h
  unfold Rich.nlgHypertension
  (split <;> try split <;> try split) <;>
    refine ⟨?_, ?_⟩ <;>
    (try simp only [List.mem_append, List.mem_singleton, not_or]) <;>
    first
      | exact h.1
      | exact h.2
      | exact ⟨h.1, by decide⟩
      | exact ⟨h.2, by decide⟩
      | exact ⟨h.1, Ne.symm (tmpl1_ne _ _ _ _ 25 (by decide) (by decide))⟩
      | exact ⟨h.2, Ne.symm (tmpl1_ne _ _ _ _ 25 (by decide) (by decide))⟩
      | exact ⟨h.1, Ne.symm (tmpl1_ne _ _ _ _ 5 (by decide) (by decide))⟩
      | exact ⟨h.2, Ne.symm (tmpl2_ne _ _ _ _ _ _ 25 (by decide) (by decide))⟩

theorem nlgCopd_noHeart (d : Rich.IntakeData) :
    Rich.StepInv (fun s =>
      "NLG Underwriting Guide §8.4: Heart attack/stent within 12 months → automatic decline."
          ∉ s.citations ∧
      "NLG Underwriting Guide §8.4: Cardiovascular event within 24 months requires senior medical review."
          ∉ s.flags) d Rich.nlgCopd := by
  intro s h
  unfold Rich.nlgCopd
  (split <;> try split <;> try split) <;>
    refine ⟨?_, ?_⟩ <;>
    (try simp only [List.mem_append, List.mem_singleton, not_or]) <;>
    first
      | exact h.1
      | exact h.2
      | exact ⟨h.1, by decide⟩
      | exact ⟨h.2, by decide⟩
      | exact ⟨h.1, Ne.symm (tmpl1_ne _ _ _ _ 25 (by decide) (by decide))⟩
      | exact ⟨h.2, Ne.symm (tmpl1_ne _ _ _ _ 25 (by decide) (by decide))⟩
      | exact ⟨h.1, Ne.symm (tmpl1_ne _ _ _ _ 5 (by decide) (by decide))⟩
      | exact ⟨h.2, Ne.symm (tmpl2_ne _ _ _ _ _ _ 25 (by decide) (by decide))⟩

theorem nlgDui_noHeart (d : Rich.IntakeData) :
    Rich.StepInv (fun s =>
      "NLG Underwriting Guide §8.4: Heart attack/stent within 12 months → automatic decline."
          ∉ s.citations ∧
      "NLG Underwriting Guide §8.4: Cardiovascular event within 24 months requires senior medical review."
          ∉ s.flags) d Rich.nlgDui := by
  intro s h
  unfold Rich.nlgDui
  (split <;> try split <;> try split) <;>
    refine ⟨?_, ?_⟩ <;>
    (try simp only [List.mem_append, List.mem_singleton, not_or]) <;>
    first
      | exact h.1
      | exact h.2
      | exact ⟨h.1, by decide⟩
      | exact ⟨h.2, by decide⟩
      | exact ⟨h.1, Ne.symm (tmpl1_ne _ _ _ _ 25 (by decide) (by decide))⟩
      | exact ⟨h.2, Ne.symm (tmpl1_ne _ _ _ _ 25 (by decide) (by decide))⟩
      | exact ⟨h.1, Ne.symm (tmpl1_ne _ _ _ _ 5 (by decide) (by decide))⟩
      | exact ⟨h.2, Ne.symm (tmpl2_ne _ _ _ _ _ _ 25 (by decide) (by decide))⟩

theorem nlgFelony_noHeart (d : Rich.IntakeData) :
    Rich.StepInv (fun s =>
      "NLG Underwriting Guide §8.4: Heart attack/stent within 12 months → automatic decline."
          ∉ s.citations ∧
      "NLG Underwriting Guide §8.4: Cardiovascular event within 24 months requires senior medical review."
          ∉ s.flags) d Rich.nlgFelony := by
  intro s h
  unfold Rich.nlgFelony
  (split <;> try split <;> try split) <;>
    refine ⟨?_, ?_⟩ <;>
    (try simp only [List.mem_append, List.mem_singleton, not_or]) <;>
    first
      | exact h.1
      | exact h.2
      | exact ⟨h.1, by decide⟩
      | exact ⟨h.2, by decide⟩
      | exact ⟨h.1, Ne.symm (tmpl1_ne _ _ _ _ 25 (by decide) (by decide))⟩
      | exact ⟨h.2, Ne.symm (tmpl1_ne _ _ _ _ 25 (by decide) (by decide))⟩
      | exact ⟨h.1, Ne.symm (tmpl1_ne _ _ _ _ 5 (by decide) (by decide))⟩
      | exact ⟨h.2, Ne.symm (tmpl2_ne _ _ _ _ _ _ 25 (by decide) (by decide))⟩

theorem nlgBankruptcy_noHeart (d : Rich.IntakeData) :
    Rich.StepInv (fun s =>
      "NLG Underwriting Guide §8.4: Heart attack/stent within 12 months → automatic decline."
          ∉ s.citations ∧
      "NLG Underwriting Guide §8.4: Cardiovascular event within 24 months requires senior medical review."
          ∉ s.flags) d Rich.nlgBankruptcy := by
  intro s h
  unfold Rich.nlgBankruptcy
  (split <;> try split <;> try split) <;>
    refine ⟨?_, ?_⟩ <;>
    (try simp only [List.mem_append, List.mem_singleton, not_or]) <;>
    first
      | exact h.1
      | exact h.2
      | exact ⟨h.1, by decide⟩
      | exact ⟨h.2, by decide⟩
      | exact ⟨h.1, Ne.symm (tmpl1_ne _ _ _ _ 25 (by decide) (by decide))⟩
      | exact ⟨h.2, Ne.symm (tmpl1_ne _ _ _ _ 25 (by decide) (by decide))⟩
      | exact ⟨h.1, Ne.symm (tmpl1_ne _ _ _ _ 5 (by decide) (by decide))⟩
      | exact ⟨h.2, Ne.symm (tmpl2_ne _ _ _ _ _ _ 25 (by decide) (by decide))⟩

theorem nlgHazOcc_noHeart (d : Rich.IntakeData) :
    Rich.StepInv (fun s =>
      "NLG Underwriting Guide §8.4: Heart attack/stent within 12 months → automatic decline."
          ∉ s.citations ∧
      "NLG Underwriting Guide §8.4: Cardiovascular event within 24 months requires senior medical review."
          ∉ s.flags) d Rich.nlgHazOcc := by
  intro s h
  unfold Rich.nlgHazOcc
  (split <;> try split <;> try split) <;>
    refine ⟨?_, ?_⟩ <;>
    (try simp only [List.mem_append, List.mem_singleton, not_or]) <;>
    first
      | exact h.1
      | exact h.2
      | exact ⟨h.1, by decide⟩
      | exact ⟨h.2, by decide⟩
      | exact ⟨h.1, Ne.symm (tmpl1_ne _ _ _ _ 25 (by decide) (by decide))⟩
      | exact ⟨h.2, Ne.symm (tmpl1_ne _ _ _ _ 25 (by decide) (by decide))⟩
      | exact ⟨h.1, Ne.symm (tmpl1_ne _ _ _ _ 5 (by decide) (by decide))⟩
      | exact ⟨h.2, Ne.symm (tmpl2_ne _ _ _ _ _ _ 25 (by decide) (by decide))⟩

theorem nlgAvocation_noHeart (d : Rich.IntakeData) :
    Rich.StepInv (fun s =>
      "NLG Underwriting Guide §8.4: Heart attack/stent within 12 months → automatic decline."
          ∉ s.citations ∧
      "NLG Underwriting Guide §8.4: Cardiovascular event within 24 months requires senior medical review."
          ∉ s.flags) d Rich.nlgAvocation := by
  intro s h
  unfold Rich.nlgAvocation
  (split <;> try split <;> try split) <;>
    refine ⟨?_, ?_⟩ <;>
    (try simp only [List.mem_append, List.mem_singleton, not_or]) <;>
    first
      | exact h.1
      | exact h.2
      | exact ⟨h.1, by decide⟩
      | exact ⟨h.2, by decide⟩
      | exact ⟨h.1, Ne.symm (tmpl1_ne _ _ _ _ 25 (by decide) (by decide))⟩
      | exact ⟨h.2, Ne.symm (tmpl1_ne _ _ _ _ 25 (by decide) (by decide))⟩
      | exact ⟨h.1, Ne.symm (tmpl1_ne _ _ _ _ 5 (by decide) (by decide))⟩
      | exact ⟨h.2, Ne.symm (tmpl2_ne _ _ _ _ _ _ 25 (by decide) (by decide))⟩

theorem nlgTravel_noHeart (d : Rich.IntakeData) :
    Rich.StepInv (fun s =>
      "NLG Underwriting Guide §8.4: Heart attack/stent within 12 months → automatic decline."
          ∉ s.citations ∧
      "NLG Underwriting Guide §8.4: Cardiovascular event within 24 months requires senior medical review."
          ∉ s.flags) d Rich.nlgTravel := by
  intro s h
  unfold Rich.nlgTravel
  (split <;> try split <;> try split) <;>
    refine ⟨?_, ?_⟩ <;>
    (try simp only [List.mem_append, List.mem_singleton, not_or]) <;>
    first
      | exact h.1
      | exact h.2
      | exact ⟨h.1, by decide⟩
      | exact ⟨h.2, by decide⟩
      | exact ⟨h.1, Ne.symm (tmpl1_ne _ _ _ _ 25 (by decide) (by decide))⟩
      | exact ⟨h.2, Ne.symm (tmpl1_ne _ _ _ _ 25 (by decide) (by decide))⟩
      | exact ⟨h.1, Ne.symm (tmpl1_ne _ _ _ _ 5 (by decide) (by decide))⟩
      | exact ⟨h.2, Ne.symm (tmpl2_ne _ _ _ _ _ _ 25 (by decide) (by decide))⟩

theorem nlgMeds_noHeart (d : Rich.IntakeData) :
    Rich.StepInv (fun s =>
      "NLG Underwriting Guide §8.4: Heart attack/stent within 12 months → automatic decline."
          ∉ s.citations ∧
      "NLG Underwriting Guide §8.4: Cardiovascular event within 24 months requires senior medical review."
          ∉ s.flags) d Rich.nlgMeds := by
  intro s h
  unfold Rich.nlgMeds
  (split <;> try split <;> try split) <;>
    refine ⟨?_, ?_⟩ <;>
    (try simp only [List.mem_append, List.mem_singleton, not_or]) <;>
    first
      | exact h.1
      | exact h.2
      | exact ⟨h.1, by decide⟩
      | exact ⟨h.2, by decide⟩
      | exact ⟨h.1, Ne.symm (tmpl1_ne _ _ _ _ 25 (by decide) (by decide))⟩
      | exact ⟨h.2, Ne.symm (tmpl1_ne _ _ _ _ 25 (by decide) (by decide))⟩
      | exact ⟨h.1, Ne.symm (tmpl1_ne _ _ _ _ 5 (by decide) (by decide))⟩
      | exact ⟨h.2, Ne.symm (tmpl2_ne _ _ _ _ _ _ 25 (by decide) (by decide))⟩

theorem nlgDoctors_noHeart (d : Rich.IntakeData) :
    Rich.StepInv (fun s =>
      "NLG Underwriting Guide §8.4: Heart attack/stent within 12 months → automatic decline."
          ∉ s.citations ∧
      "NLG Underwriting Guide §8.4: Cardiovascular event within 24 months requires senior medical review."
          ∉ s.flags) d Rich.nlgDoctors := by
  intro s h
  unfold Rich.nlgDoctors
  (split <;> try split <;> try split) <;>
    refine ⟨?_, ?_⟩ <;>
    (try simp only [List.mem_append, List.mem_singleton, not_or]) <;>
    first
      | exact h.1
      | exact h.2
      | exact ⟨h.1, by decide⟩
      | exact ⟨h.2, by decide⟩
      | exact ⟨h.1, Ne.symm (tmpl1_ne _ _ _ _ 25 (by decide) (by decide))⟩
      | exact ⟨h.2, Ne.symm (tmpl1_ne _ _ _ _ 25 (by decide) (by decide))⟩
      | exact ⟨h.1, Ne.symm (tmpl1_ne _ _ _ _ 5 (by decide) (by decide))⟩
      | exact ⟨h.2, Ne.symm (tmpl2_ne _ _ _ _ _ _ 25 (by decide) (by decide))⟩

theorem nlgHeart_absent_id (d : Rich.IntakeData)
    (ht : d.heartEventYears = none) : ∀ s, Rich.nlgHeart d s = s := by
  intro s
  unfold Rich.nlgHeart
  rw [ht]

theorem coerceNum_absent (v : Simple.RawVal) (h : Simple.isAbsentRaw v = true) :
    Simple.coerceNum v = Simple.NNum.nul := by
  cases v <;> simp_all [Simple.isAbsentRaw, Simple.coerceNum]

/-- C7: an absent years-since-event field (empty string, undefined, or
null) normalizes to null and triggers no lookback-based decline reason in
any rule of the table, while the value zero does trigger one (shown for the
NLG DUI rule); in the guideline variant, an absent heart-event field yields
neither the §8.4 decline citation nor the §8.4 review flag. -/
theorem C7_absent_years_never_trigger (d : Simple.RawData) :
    (Simple.isAbsentRaw d.duiYears = true →
      "DUI within 12 months" ∉ (Simple.evaluateCarrier Simple.nlgRule d).decline) ∧
    (Simple.isAbsentRaw d.bankruptcyYears = true →
      "Bankruptcy within 12 months" ∉ (Simple.evaluateCarrier Simple.nlgRule d).decline) ∧
    (Simple.isAbsentRaw d.cancerHistoryYears = true →
      "Cancer treatment within 24 months" ∉ (Simple.evaluateCarrier Simple.mooRule d).decline) ∧
    (Simple.isAbsentRaw d.felonyYears = true →
      "Felony conviction within 24 months" ∉ (Simple.evaluateCarrier Simple.transamericaRule d).decline) ∧
    (Simple.isAbsentRaw d.heartEventYears = true →
      "Heart attack/stent within 12 months" ∉ (Simple.evaluateCarrier Simple.americanAmicableRule d).decline) ∧
    (d.duiYears = Simple.RawVal.num 0 →
      "DUI within 12 months" ∈ (Simple.evaluateCarrier Simple.nlgRule d).decline) ∧
    (∀ t : Rich.IntakeData, t.heartEventYears = none →
      "NLG Underwriting Guide §8.4: Heart attack/stent within 12 months → automatic decline."
          ∉ (Rich.evaluateNationalLifeGroup t).citations ∧
      "NLG Underwriting Guide §8.4: Cardiovascular event within 24 months requires senior medical review."
          ∉ (Rich.evaluateNationalLifeGroup t).flags) := by
  refine ⟨?_, ?_, ?_, ?_, ?_, ?_, ?_⟩
  · intro h
    have hc := coerceNum_absent _ h
    simp [Simple.evaluateCarrier, Simple.nlgRule, Simple.normalizeDataForRules, hc,
      Simple.nNeNull]
  · intro h
    have hc := coerceNum_absent _ h
    simp [Simple.evaluateCarrier, Simple.nlgRule, Simple.normalizeDataForRules, hc,
      Simple.nNeNull]
  · intro h
    have hc := coerceNum_absent _ h
    simp [Simple.evaluateCarrier, Simple.mooRule, Simple.normalizeDataForRules, hc,
      Simple.nNeNull]
  · intro h
    have hc := coerceNum_absent _ h
    simp [Simple.evaluateCarrier, Simple.transamericaRule, Simple.normalizeDataForRules, hc,
      Simple.nNeNull]
  · intro h
    have hc := coerceNum_absent _ h
    simp [Simple.evaluateCarrier, Simple.americanAmicableRule, Simple.normalizeDataForRules, hc,
      Simple.nNeNull]
  · intro h
    simp [Simple.evaluateCarrier, Simple.nlgRule, Simple.normalizeDataForRules, h,
      Simple.coerceNum, Simple.nNeNull, Simple.nle, List.mem_append]
  · intro t ht
    refine runSteps_inv
      (fun s =>
        "NLG Underwriting Guide §8.4: Heart attack/stent within 12 months → automatic decline."
            ∉ s.citations ∧
        "NLG Underwriting Guide §8.4: Cardiovascular event within 24 months requires senior medical review."
            ∉ s.flags) t Rich.nlgSteps Rich.nlgInit ?_ ?_
    · intro f hf
      simp only [Rich.nlgSteps, List.mem_cons, List.not_mem_nil, or_false] at hf
      rcases hf with rfl|rfl|rfl|rfl|rfl|rfl|rfl|rfl|rfl|rfl|rfl|rfl|rfl|rfl|rfl|rfl|rfl|rfl|rfl|rfl
      exacts [nlgAge_noHeart t, nlgProduct_noHeart t, nlgIncomeCap_noHeart t,
        nlgMinCov_noHeart t, nlgMillion_noHeart t, nlgTobacco_noHeart t,
        fun s h => by rw [nlgHeart_absent_id t ht s]; exact h,
        nlgCancer_noHeart t, nlgDiabetes_noHeart t, nlgInsulin_noHeart t,
        nlgHypertension_noHeart t, nlgCopd_noHeart t, nlgDui_noHeart t,
        nlgFelony_noHeart t, nlgBankruptcy_noHeart t, nlgHazOcc_noHeart t,
        nlgAvocation_noHeart t, nlgTravel_noHeart t, nlgMeds_noHeart t,
        nlgDoctors_noHeart t]
    · exact ⟨by simp [Rich.nlgInit], by simp [Rich.nlgInit]⟩

/-- C7 witness: the benign records (years fields undefined; then DUI = 0). -/
theorem C7_absent_years_never_trigger_witness :
    ("DUI within 12 months" ∉ (Simple.evaluateCarrier Simple.nlgRule rawBenign).decline) ∧
    ("Bankruptcy within 12 months" ∉ (Simple.evaluateCarrier Simple.nlgRule rawBenign).decline) ∧
    ("Cancer treatment within 24 months" ∉ (Simple.evaluateCarrier Simple.mooRule rawBenign).decline) ∧
    ("Felony conviction within 24 months" ∉ (Simple.evaluateCarrier Simple.transamericaRule rawBenign).decline) ∧
    ("Heart attack/stent within 12 months" ∉ (Simple.evaluateCarrier Simple.americanAmicableRule rawBenign).decline) ∧
    ("DUI within 12 months" ∈ (Simple.evaluateCarrier Simple.nlgRule rawZeroDui).decline) ∧
    ("NLG Underwriting Guide §8.4: Heart attack/stent within 12 months → automatic decline."
        ∉ (Rich.evaluateNationalLifeGroup benign).citations ∧
      "NLG Underwriting Guide §8.4: Cardiovascular event within 24 months requires senior medical review."
        ∉ (Rich.evaluateNationalLifeGroup benign).flags) := by
  have h := C7_absent_years_never_trigger rawBenign
  have h0 := C7_absent_years_never_trigger rawZeroDui
  exact ⟨h.1 rfl, h.2.1 rfl, h.2.2.1 rfl, h.2.2.2.1 rfl, h.2.2.2.2.1 rfl,
    h0.2.2.2.2.2.1 rfl, h.2.2.2.2.2.2 benign rfl⟩

/-- C8: a malformed numeric string normalizes to NaN, every threshold
comparison against NaN is false (the evaluation is a total function, so it
terminates and cannot throw), and a record whose numeric fields are all
malformed evaluates — for every carrier of the rule table — exactly as if
those fields were absent; the guideline variant's BMI block is likewise
inert on an unparseable BMI. -/
theorem C8_malformed_numeric_harmless (c : Simple.CarrierRule)
    (hc : c ∈ Simple.CARRIER_RULES) (d : Simple.RawData) (s : String) (hs : s ≠ "") :
    Simple.coerceNum (Simple.RawVal.str s none) = Simple.NNum.nan ∧
    (∀ k : ℤ, Simple.nlt Simple.NNum.nan k = false ∧
      Simple.nle Simple.NNum.nan k = false ∧ Simple.ngt Simple.NNum.nan k = false ∧
      jlt (Simple.toNum (Simple.RawVal.str s none)) k = false ∧
      jgt (Simple.toNum (Simple.RawVal.str s none)) k = false ∧
      jge (Simple.toNum (Simple.RawVal.str s none)) k = false) ∧
    Simple.evaluateCarrier c (setNums (Simple.RawVal.str s none) d) =
      Simple.evaluateCarrier c (setNums Simple.RawVal.undef d) ∧
    (∀ (t : Rich.IntakeData) (u : Rich.GuidelineResult),
      t.bmiParsed = none → Rich.mooBmi t u = u) := by
  refine ⟨by simp [Simple.coerceNum, hs], ?_, ?_, ?_⟩
  · intro k
    refine ⟨rfl, rfl, rfl, ?_, ?_, ?_⟩ <;> simp [Simple.toNum, hs, jlt, jgt, jge]
  · simp only [Simple.CARRIER_RULES, List.mem_cons, List.not_mem_nil, or_false] at hc
    rcases hc with rfl|rfl|rfl|rfl|rfl|rfl <;>
      simp [Simple.evaluateCarrier, Simple.productFlag, Simple.incomeCapFlag,
        Simple.minCovFlag, Simple.ageFlag, Simple.tobaccoNotes, Simple.buildChecklist,
        Simple.normalizeDataForRules, setNums, Simple.truthy, Simple.toNum,
        Simple.coerceNum, Simple.rawNeNull, Simple.nNeNull, Simple.nle, Simple.nlt,
        Simple.ngt, Simple.nTruthy, hs, jgtJ, jmul, jlt, jgt, jge,
        Simple.nlgRule, Simple.mooRule, Simple.ameritasRule, Simple.lafayetteRule,
        Simple.transamericaRule, Simple.americanAmicableRule]
  · intro t u ht
    unfold Rich.mooBmi
    rw [ht]

/-- C8 witness: the malformed string "abc" at National Life Group. -/
theorem C8_malformed_numeric_harmless_witness :
    Simple.coerceNum (Simple.RawVal.str "abc" none) = Simple.NNum.nan ∧
    Simple.nlt Simple.NNum.nan 2 = false ∧
    Simple.evaluateCarrier Simple.nlgRule (setNums (Simple.RawVal.str "abc" none) rawBenign) =
      Simple.evaluateCarrier Simple.nlgRule (setNums Simple.RawVal.undef rawBenign) ∧
    Rich.mooBmi wBmiNaN Rich.mooInit = Rich.mooInit := by
  have h := C8_malformed_numeric_harmless Simple.nlgRule (List.mem_cons_self _ _)
    rawBenign "abc" (by decide)
  exact ⟨h.1, (h.2.1 2).1, h.2.2.1, h.2.2.2 wBmiNaN Rich.mooInit rfl⟩

theorem strContains_self (s : String) : strContains s s = true := by
  have h := listContains_self_append s.data []
  simpa using h

theorem truthy_age_of_jgt (v : Simple.RawVal) (k : ℤ) (hk : 0 < k)
    (h : jgt (Simple.toNum v) k = true) : Simple.truthy v = true := by
  cases v with
  | undef => simp [Simple.toNum, jgt] at h
  | null => simp [Simple.toNum, jgt] at h; omega
  | nan => simp [Simple.toNum, jgt] at h
  | num q =>
    simp only [Simple.toNum, jgt, decide_eq_true_eq] at h
    simp only [Simple.truthy, decide_eq_true_eq]
    omega
  | str s v =>
    by_cases hs : s = ""
    · simp [Simple.toNum, hs, jgt] at h; omega
    · simp [Simple.truthy, hs]

theorem eligible_false_of_mem_flags (c : Simple.CarrierRule) (dd : Simple.RawData)
    (m : String) (hm : m ∈ (Simple.evaluateCarrier c dd).flags) :
    (Simple.evaluateCarrier c dd).eligible = false := by
  have h1 : (Simple.evaluateCarrier c dd).eligible =
      ((Simple.evaluateCarrier c dd).decline.length == 0 &&
        (Simple.evaluateCarrier c dd).flags.length == 0) := rfl
  have h2 : (Simple.evaluateCarrier c dd).flags ≠ [] := List.ne_nil_of_mem hm
  rw [h1]
  simp [List.length_eq_zero, h2]


/-- C1 (amended): whenever the applicant's age strictly exceeds a
carrier's maximum issue age, the evaluation records a message embedding
the literal max-age threshold and the result is not eligible: in the
guideline variant the citation list holds the message and the final status
is non-eligible (Not Eligible unless a later soft-flag block overwrote it
to Needs Review — see the counterexample), and in the simple rule-table
variant the boolean eligibility is false with the threshold in the flag. -/
theorem C1_amended_age_citation (t : Rich.IntakeData) :
    (jgt t.age 80 = true →
      (Rich.evaluateNationalLifeGroup t).status ≠ Rich.Status.eligible ∧
      ∃ m ∈ (Rich.evaluateNationalLifeGroup t).citations, strContains m "80" = true) ∧
    (jgt t.age 75 = true →
      (Rich.evaluateMutualOfOmaha t).status ≠ Rich.Status.eligible ∧
      ∃ m ∈ (Rich.evaluateMutualOfOmaha t).citations, strContains m "75" = true) ∧
    (jgt t.age 80 = true →
      (Rich.evaluateAmeritas t).status ≠ Rich.Status.eligible ∧
      ∃ m ∈ (Rich.evaluateAmeritas t).citations, strContains m "80" = true) ∧
    (jgt t.age 85 = true →
      (Rich.evaluateLafayetteLife t).status ≠ Rich.Status.eligible ∧
      ∃ m ∈ (Rich.evaluateLafayetteLife t).citations, strContains m "85" = true) ∧
    (jgt t.age 79 = true →
      (Rich.evaluateTransamerica t).status ≠ Rich.Status.eligible ∧
      ∃ m ∈ (Rich.evaluateTransamerica t).citations, strContains m "79" = true) ∧
    (jgt t.age 85 = true →
      (Rich.evaluateAmericanAmicable t).status ≠ Rich.Status.eligible ∧
      ∃ m ∈ (Rich.evaluateAmericanAmicable t).citations, strContains m "85" = true) ∧
    (∀ c ∈ Simple.CARRIER_RULES, ∀ dd : Simple.RawData,
      jgt (Simple.toNum dd.age) c.maxIssueAge = true →
      (Simple.evaluateCarrier c dd).eligible = false ∧
      ∃ m ∈ (Simple.evaluateCarrier c dd).flags,
        strContains m (jstrQ c.maxIssueAge) = true) := by
  refine ⟨?_, ?_, ?_, ?_, ?_, ?_, ?_⟩
  · intro h
    have e : Rich.evaluateNationalLifeGroup t =
        Rich.runSteps t ([] ++ Rich.nlgAge :: [Rich.nlgProduct, Rich.nlgIncomeCap, Rich.nlgMinCov, Rich.nlgMillion, Rich.nlgTobacco, Rich.nlgHeart, Rich.nlgCancer, Rich.nlgDiabetes, Rich.nlgInsulin, Rich.nlgHypertension, Rich.nlgCopd, Rich.nlgDui, Rich.nlgFelony, Rich.nlgBankruptcy, Rich.nlgHazOcc, Rich.nlgAvocation, Rich.nlgTravel, Rich.nlgMeds, Rich.nlgDoctors]) Rich.nlgInit := rfl
    rw [e]
    have hr := runSteps_fire
      (fun s => s.status ≠ Rich.Status.eligible ∧
        ("NLG Underwriting Guide §2.1: Maximum issue age 80. Applicant age " ++ jstr t.age ++ " exceeds limit.") ∈ s.citations) t
      [] [Rich.nlgProduct, Rich.nlgIncomeCap, Rich.nlgMinCov, Rich.nlgMillion, Rich.nlgTobacco, Rich.nlgHeart, Rich.nlgCancer, Rich.nlgDiabetes, Rich.nlgInsulin, Rich.nlgHypertension, Rich.nlgCopd, Rich.nlgDui, Rich.nlgFelony, Rich.nlgBankruptcy, Rich.nlgHazOcc, Rich.nlgAvocation, Rich.nlgTravel, Rich.nlgMeds, Rich.nlgDoctors] Rich.nlgAge Rich.nlgInit nlgPres
      (fun f hf => stepInv_statusCit f hf t _)
      (fun u => by unfold Rich.nlgAge; simp [h, List.mem_append])
    exact ⟨hr.1, "NLG Underwriting Guide §2.1: Maximum issue age 80. Applicant age " ++ jstr t.age ++ " exceeds limit.", hr.2, strContains_append_left _ _ _ (strContains_append_left _ _ _ (by decide))⟩
  · intro h
    have e : Rich.evaluateMutualOfOmaha t =
        Rich.runSteps t ([] ++ Rich.mooAge :: [Rich.mooProduct, Rich.mooMinCov, Rich.mooIncomeCap, Rich.mooBmi, Rich.mooTobacco, Rich.mooCancer, Rich.mooDiabetes, Rich.mooInsulin, Rich.mooHeart, Rich.mooCopd]) Rich.mooInit := rfl
    rw [e]
    have hr := runSteps_fire
      (fun s => s.status ≠ Rich.Status.eligible ∧
        ("MOO Underwriting Manual §1.2: Maximum issue age 75. Applicant age " ++ jstr t.age ++ " exceeds limit.") ∈ s.citations) t
      [] [Rich.mooProduct, Rich.mooMinCov, Rich.mooIncomeCap, Rich.mooBmi, Rich.mooTobacco, Rich.mooCancer, Rich.mooDiabetes, Rich.mooInsulin, Rich.mooHeart, Rich.mooCopd] Rich.mooAge Rich.mooInit mooPres
      (fun f hf => stepInv_statusCit f hf t _)
      (fun u => by unfold Rich.mooAge; simp [h, List.mem_append])
    exact ⟨hr.1, "MOO Underwriting Manual §1.2: Maximum issue age 75. Applicant age " ++ jstr t.age ++ " exceeds limit.", hr.2, strContains_append_left _ _ _ (strContains_append_left _ _ _ (by decide))⟩
  · intro h
    have e : Rich.evaluateAmeritas t =
        Rich.runSteps t ([] ++ Rich.amAge :: [Rich.amProduct, Rich.amMinCov, Rich.amIncomeCap, Rich.amHazOcc, Rich.amAvocation, Rich.amTobacco]) Rich.amInit := rfl
    rw [e]
    have hr := runSteps_fire
      (fun s => s.status ≠ Rich.Status.eligible ∧
        ("Ameritas UW Guide §2.1: Maximum issue age 80. Applicant age " ++ jstr t.age ++ ".") ∈ s.citations) t
      [] [Rich.amProduct, Rich.amMinCov, Rich.amIncomeCap, Rich.amHazOcc, Rich.amAvocation, Rich.amTobacco] Rich.amAge Rich.amInit amPres
      (fun f hf => stepInv_statusCit f hf t _)
      (fun u => by unfold Rich.amAge; simp [h, List.mem_append])
    exact ⟨hr.1, "Ameritas UW Guide §2.1: Maximum issue age 80. Applicant age " ++ jstr t.age ++ ".", hr.2, strContains_append_left _ _ _ (strContains_append_left _ _ _ (by decide))⟩
  · intro h
    have e : Rich.evaluateLafayetteLife t =
        Rich.runSteps t ([] ++ Rich.lfAge :: [Rich.lfProduct, Rich.lfMinCov, Rich.lfIncomeCap, Rich.lfHypertension, Rich.lfInsulin, Rich.lfTobacco]) Rich.lfInit := rfl
    rw [e]
    have hr := runSteps_fire
      (fun s => s.status ≠ Rich.Status.eligible ∧
        ("Lafayette UW Manual §1.3: Maximum issue age 85. Applicant age " ++ jstr t.age ++ ".") ∈ s.citations) t
      [] [Rich.lfProduct, Rich.lfMinCov, Rich.lfIncomeCap, Rich.lfHypertension, Rich.lfInsulin, Rich.lfTobacco] Rich.lfAge Rich.lfInit lfPres
      (fun f hf => stepInv_statusCit f hf t _)
      (fun u => by unfold Rich.lfAge; simp [h, List.mem_append])
    exact ⟨hr.1, "Lafayette UW Manual §1.3: Maximum issue age 85. Applicant age " ++ jstr t.age ++ ".", hr.2, strContains_append_left _ _ _ (strContains_append_left _ _ _ (by decide))⟩
  · intro h
    have e : Rich.evaluateTransamerica t =
        Rich.runSteps t ([] ++ Rich.trAge :: [Rich.trProduct, Rich.trMinCov, Rich.trIncomeCap, Rich.trFelony, Rich.trTobacco]) Rich.trInit := rfl
    rw [e]
    have hr := runSteps_fire
      (fun s => s.status ≠ Rich.Status.eligible ∧
        ("Transamerica UW Guide §1.1: Maximum issue age 79. Applicant age " ++ jstr t.age ++ ".") ∈ s.citations) t
      [] [Rich.trProduct, Rich.trMinCov, Rich.trIncomeCap, Rich.trFelony, Rich.trTobacco] Rich.trAge Rich.trInit trPres
      (fun f hf => stepInv_statusCit f hf t _)
      (fun u => by unfold Rich.trAge; simp [h, List.mem_append])
    exact ⟨hr.1, "Transamerica UW Guide §1.1: Maximum issue age 79. Applicant age " ++ jstr t.age ++ ".", hr.2, strContains_append_left _ _ _ (strContains_append_left _ _ _ (by decide))⟩
  · intro h
    have e : Rich.evaluateAmericanAmicable t =
        Rich.runSteps t ([] ++ Rich.aaAge :: [Rich.aaProduct, Rich.aaMinCov, Rich.aaIncomeCap, Rich.aaCopd, Rich.aaHeart, Rich.aaTobacco]) Rich.aaInit := rfl
    rw [e]
    have hr := runSteps_fire
      (fun s => s.status ≠ Rich.Status.eligible ∧
        ("AA UW Manual §2.1: Maximum issue age 85. Applicant age " ++ jstr t.age ++ ".") ∈ s.citations) t
      [] [Rich.aaProduct, Rich.aaMinCov, Rich.aaIncomeCap, Rich.aaCopd, Rich.aaHeart, Rich.aaTobacco] Rich.aaAge Rich.aaInit aaPres
      (fun f hf => stepInv_statusCit f hf t _)
      (fun u => by unfold Rich.aaAge; simp [h, List.mem_append])
    exact ⟨hr.1, "AA UW Manual §2.1: Maximum issue age 85. Applicant age " ++ jstr t.age ++ ".", hr.2, strContains_append_left _ _ _ (strContains_append_left _ _ _ (by decide))⟩
  · intro c hc
    simp only [Simple.CARRIER_RULES, List.mem_cons, List.not_mem_nil, or_false] at hc
    rcases hc with rfl|rfl|rfl|rfl|rfl|rfl
    · intro dd h
      simp only [Simple.nlgRule] at h
      have ht := truthy_age_of_jgt dd.age 80 (by decide) h
      have hflag : Simple.ageFlag Simple.nlgRule dd =
          ["Age " ++ Simple.interp dd.age ++ " exceeds maximum (" ++
            jstrQ (80 : ℤ) ++ ")"] := by
        simp [Simple.ageFlag, Simple.nlgRule, ht, h]
      have hmem : ("Age " ++ Simple.interp dd.age ++ " exceeds maximum (" ++
          jstrQ (80 : ℤ) ++ ")") ∈ (Simple.evaluateCarrier Simple.nlgRule dd).flags := by
        show _ ∈ Simple.productFlag _ _ ++ Simple.incomeCapFlag _ _ ++
          Simple.minCovFlag _ _ ++ Simple.ageFlag _ _
        rw [hflag]
        simp [List.mem_append]
      exact ⟨eligible_false_of_mem_flags _ _ _ hmem,
        _, hmem,
        strContains_append_left _ _ _
          (strContains_append_right _ _ _ (strContains_self _))⟩
    · intro dd h
      simp only [Simple.mooRule] at h
      have ht := truthy_age_of_jgt dd.age 75 (by decide) h
      have hflag : Simple.ageFlag Simple.mooRule dd =
          ["Age " ++ Simple.interp dd.age ++ " exceeds maximum (" ++
            jstrQ (75 : ℤ) ++ ")"] := by
        simp [Simple.ageFlag, Simple.mooRule, ht, h]
      have hmem : ("Age " ++ Simple.interp dd.age ++ " exceeds maximum (" ++
          jstrQ (75 : ℤ) ++ ")") ∈ (Simple.evaluateCarrier Simple.mooRule dd).flags := by
        show _ ∈ Simple.productFlag _ _ ++ Simple.incomeCapFlag _ _ ++
          Simple.minCovFlag _ _ ++ Simple.ageFlag _ _
        rw [hflag]
        simp [List.mem_append]
      exact ⟨eligible_false_of_mem_flags _ _ _ hmem,
        _, hmem,
        strContains_append_left _ _ _
          (strContains_append_right _ _ _ (strContains_self _))⟩
    · intro dd h
      simp only [Simple.ameritasRule] at h
      have ht := truthy_age_of_jgt dd.age 80 (by decide) h
      have hflag : Simple.ageFlag Simple.ameritasRule dd =
          ["Age " ++ Simple.interp dd.age ++ " exceeds maximum (" ++
            jstrQ (80 : ℤ) ++ ")"] := by
        simp [Simple.ageFlag, Simple.ameritasRule, ht, h]
      have hmem : ("Age " ++ Simple.interp dd.age ++ " exceeds maximum (" ++
          jstrQ (80 : ℤ) ++ ")") ∈ (Simple.evaluateCarrier Simple.ameritasRule dd).flags := by
        show _ ∈ Simple.productFlag _ _ ++ Simple.incomeCapFlag _ _ ++
          Simple.minCovFlag _ _ ++ Simple.ageFlag _ _
        rw [hflag]
        simp [List.mem_append]
      exact ⟨eligible_false_of_mem_flags _ _ _ hmem,
        _, hmem,
        strContains_append_left _ _ _
          (strContains_append_right _ _ _ (strContains_self _))⟩
    · intro dd h
      simp only [Simple.lafayetteRule] at h
      have ht := truthy_age_of_jgt dd.age 85 (by decide) h
      have hflag : Simple.ageFlag Simple.lafayetteRule dd =
          ["Age " ++ Simple.interp dd.age ++ " exceeds maximum (" ++
            jstrQ (85 : ℤ) ++ ")"] := by
        simp [Simple.ageFlag, Simple.lafayetteRule, ht, h]
      have hmem : ("Age " ++ Simple.interp dd.age ++ " exceeds maximum (" ++
          jstrQ (85 : ℤ) ++ ")") ∈ (Simple.evaluateCarrier Simple.lafayetteRule dd).flags := by
        show _ ∈ Simple.productFlag _ _ ++ Simple.incomeCapFlag _ _ ++
          Simple.minCovFlag _ _ ++ Simple.ageFlag _ _
        rw [hflag]
        simp [List.mem_append]
      exact ⟨eligible_false_of_mem_flags _ _ _ hmem,
        _, hmem,
        strContains_append_left _ _ _
          (strContains_append_right _ _ _ (strContains_self _))⟩
    · intro dd h
      simp only [Simple.transamericaRule] at h
      have ht := truthy_age_of_jgt dd.age 79 (by decide) h
      have hflag : Simple.ageFlag Simple.transamericaRule dd =
          ["Age " ++ Simple.interp dd.age ++ " exceeds maximum (" ++
            jstrQ (79 : ℤ) ++ ")"] := by
        simp [Simple.ageFlag, Simple.transamericaRule, ht, h]
      have hmem : ("Age " ++ Simple.interp dd.age ++ " exceeds maximum (" ++
          jstrQ (79 : ℤ) ++ ")") ∈ (Simple.evaluateCarrier Simple.transamericaRule dd).flags := by
        show _ ∈ Simple.productFlag _ _ ++ Simple.incomeCapFlag _ _ ++
          Simple.minCovFlag _ _ ++ Simple.ageFlag _ _
        rw [hflag]
        simp [List.mem_append]
      exact ⟨eligible_false_of_mem_flags _ _ _ hmem,
        _, hmem,
        strContains_append_left _ _ _
          (strContains_append_right _ _ _ (strContains_self _))⟩
    · intro dd h
      simp only [Simple.americanAmicableRule] at h
      have ht := truthy_age_of_jgt dd.age 85 (by decide) h
      have hflag : Simple.ageFlag Simple.americanAmicableRule dd =
          ["Age " ++ Simple.interp dd.age ++ " exceeds maximum (" ++
            jstrQ (85 : ℤ) ++ ")"] := by
        simp [Simple.ageFlag, Simple.americanAmicableRule, ht, h]
      have hmem : ("Age " ++ Simple.interp dd.age ++ " exceeds maximum (" ++
          jstrQ (85 : ℤ) ++ ")") ∈ (Simple.evaluateCarrier Simple.americanAmicableRule dd).flags := by
        show _ ∈ Simple.productFlag _ _ ++ Simple.incomeCapFlag _ _ ++
          Simple.minCovFlag _ _ ++ Simple.ageFlag _ _
        rw [hflag]
        simp [List.mem_append]
      exact ⟨eligible_false_of_mem_flags _ _ _ hmem,
        _, hmem,
        strContains_append_left _ _ _
          (strContains_append_right _ _ _ (strContains_self _))⟩


/-- C1 witness: age 86 is over every maximum; every rich status is
non-eligible and the simple NLG evaluation is ineligible. -/
theorem C1_amended_age_citation_witness :
    (Rich.evaluateNationalLifeGroup wOverAge).status ≠ Rich.Status.eligible ∧
    (Rich.evaluateMutualOfOmaha wOverAge).status ≠ Rich.Status.eligible ∧
    (Rich.evaluateAmeritas wOverAge).status ≠ Rich.Status.eligible ∧
    (Rich.evaluateLafayetteLife wOverAge).status ≠ Rich.Status.eligible ∧
    (Rich.evaluateTransamerica wOverAge).status ≠ Rich.Status.eligible ∧
    (Rich.evaluateAmericanAmicable wOverAge).status ≠ Rich.Status.eligible ∧
    (Simple.evaluateCarrier Simple.nlgRule rawOldAge).eligible = false := by
  have h := C1_amended_age_citation wOverAge
  exact ⟨(h.1 (by decide)).1, (h.2.1 (by decide)).1, (h.2.2.1 (by decide)).1,
    (h.2.2.2.1 (by decide)).1, (h.2.2.2.2.1 (by decide)).1,
    (h.2.2.2.2.2.1 (by decide)).1,
    (h.2.2.2.2.2.2 Simple.nlgRule (List.mem_cons_self _ _) rawOldAge (by decide)).1⟩


/-- C3 (amended): for each of the six carriers, coverage above the income ×
multiplier cap emits a flag whose text contains the carrier's literal
multiplier; the computed cap value is additionally embedded in the National
Life Group and Mutual of Omaha flags, but not in those of Ameritas,
Lafayette Life, Transamerica, or American Amicable (see the
counterexample). -/
theorem C3_amended_income_cap_flag (t : Rich.IntakeData) :
    (jgtJ t.coverage (jmul t.annualIncome 30) = true →
      ∃ m ∈ (Rich.evaluateNationalLifeGroup t).flags, strContains m "30×" = true ∧
        strContains m (fmtUSDj (jmul t.annualIncome 30)) = true) ∧
    (jgtJ t.coverage (jmul t.annualIncome 25) = true →
      ∃ m ∈ (Rich.evaluateMutualOfOmaha t).flags, strContains m "25×" = true ∧
        strContains m (fmtUSDj (jmul t.annualIncome 25)) = true) ∧
    (jgtJ t.coverage (jmul t.annualIncome 30) = true →
      ∃ m ∈ (Rich.evaluateAmeritas t).flags, strContains m "30×" = true) ∧
    (jgtJ t.coverage (jmul t.annualIncome 35) = true →
      ∃ m ∈ (Rich.evaluateLafayetteLife t).flags, strContains m "35×" = true) ∧
    (jgtJ t.coverage (jmul t.annualIncome 25) = true →
      ∃ m ∈ (Rich.evaluateTransamerica t).flags, strContains m "25×" = true) ∧
    (jgtJ t.coverage (jmul t.annualIncome 20) = true →
      ∃ m ∈ (Rich.evaluateAmericanAmicable t).flags, strContains m "20×" = true) := by
  refine ⟨?_, ?_, ?_, ?_, ?_, ?_⟩
  · intro h
    have e : Rich.evaluateNationalLifeGroup t =
        Rich.runSteps t ([Rich.nlgAge, Rich.nlgProduct] ++ Rich.nlgIncomeCap :: [Rich.nlgMinCov, Rich.nlgMillion, Rich.nlgTobacco, Rich.nlgHeart, Rich.nlgCancer, Rich.nlgDiabetes, Rich.nlgInsulin, Rich.nlgHypertension, Rich.nlgCopd, Rich.nlgDui, Rich.nlgFelony, Rich.nlgBankruptcy, Rich.nlgHazOcc, Rich.nlgAvocation, Rich.nlgTravel, Rich.nlgMeds, Rich.nlgDoctors]) Rich.nlgInit := rfl
    rw [e]
    have hr := runSteps_fire
      (fun s => ("NLG Underwriting Guide §4.2: Coverage " ++ fmtUSDj t.coverage ++ " exceeds 30× income cap (" ++ fmtUSDj (jmul t.annualIncome 30) ++ "). Financial justification required.") ∈ s.flags) t
      [Rich.nlgAge, Rich.nlgProduct] [Rich.nlgMinCov, Rich.nlgMillion, Rich.nlgTobacco, Rich.nlgHeart, Rich.nlgCancer, Rich.nlgDiabetes, Rich.nlgInsulin, Rich.nlgHypertension, Rich.nlgCopd, Rich.nlgDui, Rich.nlgFelony, Rich.nlgBankruptcy, Rich.nlgHazOcc, Rich.nlgAvocation, Rich.nlgTravel, Rich.nlgMeds, Rich.nlgDoctors] Rich.nlgIncomeCap Rich.nlgInit nlgPres
      (fun f hf => stepInv_flag f hf t _)
      (fun u => by unfold Rich.nlgIncomeCap; simp [h, List.mem_append])
    exact ⟨"NLG Underwriting Guide §4.2: Coverage " ++ fmtUSDj t.coverage ++ " exceeds 30× income cap (" ++ fmtUSDj (jmul t.annualIncome 30) ++ "). Financial justification required.", hr, strContains_append_left _ _ _ (strContains_append_left _ _ _ (strContains_append_right _ _ _ (by decide))), strContains_append_left _ _ _ (strContains_append_right _ _ _ (strContains_self _))⟩
  · intro h
    have e : Rich.evaluateMutualOfOmaha t =
        Rich.runSteps t ([Rich.mooAge, Rich.mooProduct, Rich.mooMinCov] ++ Rich.mooIncomeCap :: [Rich.mooBmi, Rich.mooTobacco, Rich.mooCancer, Rich.mooDiabetes, Rich.mooInsulin, Rich.mooHeart, Rich.mooCopd]) Rich.mooInit := rfl
    rw [e]
    have hr := runSteps_fire
      (fun s => ("MOO Underwriting Manual §3.2: Coverage exceeds 25× income (" ++ fmtUSDj (jmul t.annualIncome 25) ++ "). Financial underwriting required.") ∈ s.flags) t
      [Rich.mooAge, Rich.mooProduct, Rich.mooMinCov] [Rich.mooBmi, Rich.mooTobacco, Rich.mooCancer, Rich.mooDiabetes, Rich.mooInsulin, Rich.mooHeart, Rich.mooCopd] Rich.mooIncomeCap Rich.mooInit mooPres
      (fun f hf => stepInv_flag f hf t _)
      (fun u => by unfold Rich.mooIncomeCap; simp [h, List.mem_append])
    exact ⟨"MOO Underwriting Manual §3.2: Coverage exceeds 25× income (" ++ fmtUSDj (jmul t.annualIncome 25) ++ "). Financial underwriting required.", hr, strContains_append_left _ _ _ (strContains_append_left _ _ _ (by decide)), strContains_append_left _ _ _ (strContains_append_right _ _ _ (strContains_self _))⟩
  · intro h
    have e : Rich.evaluateAmeritas t =
        Rich.runSteps t ([Rich.amAge, Rich.amProduct, Rich.amMinCov] ++ Rich.amIncomeCap :: [Rich.amHazOcc, Rich.amAvocation, Rich.amTobacco]) Rich.amInit := rfl
    rw [e]
    have hr := runSteps_fire
      (fun s => ("Ameritas UW Guide §4.2: Coverage exceeds 30× income. Financial justification required.") ∈ s.flags) t
      [Rich.amAge, Rich.amProduct, Rich.amMinCov] [Rich.amHazOcc, Rich.amAvocation, Rich.amTobacco] Rich.amIncomeCap Rich.amInit amPres
      (fun f hf => stepInv_flag f hf t _)
      (fun u => by unfold Rich.amIncomeCap; simp [h, List.mem_append])
    exact ⟨"Ameritas UW Guide §4.2: Coverage exceeds 30× income. Financial justification required.", hr, by decide⟩
  · intro h
    have e : Rich.evaluateLafayetteLife t =
        Rich.runSteps t ([Rich.lfAge, Rich.lfProduct, Rich.lfMinCov] ++ Rich.lfIncomeCap :: [Rich.lfHypertension, Rich.lfInsulin, Rich.lfTobacco]) Rich.lfInit := rfl
    rw [e]
    have hr := runSteps_fire
      (fun s => ("Lafayette UW Manual §3.2: Coverage exceeds 35× income cap. Enhanced financial underwriting required.") ∈ s.flags) t
      [Rich.lfAge, Rich.lfProduct, Rich.lfMinCov] [Rich.lfHypertension, Rich.lfInsulin, Rich.lfTobacco] Rich.lfIncomeCap Rich.lfInit lfPres
      (fun f hf => stepInv_flag f hf t _)
      (fun u => by unfold Rich.lfIncomeCap; simp [h, List.mem_append])
    exact ⟨"Lafayette UW Manual §3.2: Coverage exceeds 35× income cap. Enhanced financial underwriting required.", hr, by decide⟩
  · intro h
    have e : Rich.evaluateTransamerica t =
        Rich.runSteps t ([Rich.trAge, Rich.trProduct, Rich.trMinCov] ++ Rich.trIncomeCap :: [Rich.trFelony, Rich.trTobacco]) Rich.trInit := rfl
    rw [e]
    have hr := runSteps_fire
      (fun s => ("Transamerica UW Guide §4.2: Coverage exceeds 25× income. Financial justification required.") ∈ s.flags) t
      [Rich.trAge, Rich.trProduct, Rich.trMinCov] [Rich.trFelony, Rich.trTobacco] Rich.trIncomeCap Rich.trInit trPres
      (fun f hf => stepInv_flag f hf t _)
      (fun u => by unfold Rich.trIncomeCap; simp [h, List.mem_append])
    exact ⟨"Transamerica UW Guide §4.2: Coverage exceeds 25× income. Financial justification required.", hr, by decide⟩
  · intro h
    have e : Rich.evaluateAmericanAmicable t =
        Rich.runSteps t ([Rich.aaAge, Rich.aaProduct, Rich.aaMinCov] ++ Rich.aaIncomeCap :: [Rich.aaCopd, Rich.aaHeart, Rich.aaTobacco]) Rich.aaInit := rfl
    rw [e]
    have hr := runSteps_fire
      (fun s => ("AA UW Manual §3.2: Coverage exceeds 20× income. Financial underwriting required.") ∈ s.flags) t
      [Rich.aaAge, Rich.aaProduct, Rich.aaMinCov] [Rich.aaCopd, Rich.aaHeart, Rich.aaTobacco] Rich.aaIncomeCap Rich.aaInit aaPres
      (fun f hf => stepInv_flag f hf t _)
      (fun u => by unfold Rich.aaIncomeCap; simp [h, List.mem_append])
    exact ⟨"AA UW Manual §3.2: Coverage exceeds 20× income. Financial underwriting required.", hr, by decide⟩


/-- C3 witness: coverage 300,000 on income 1,000 exceeds every cap; each
flag list contains its literal multiplier (and the cap for NLG and MOO). -/
theorem C3_amended_income_cap_flag_witness :
    (∃ m ∈ (Rich.evaluateNationalLifeGroup wOverCap).flags, strContains m "30×" = true ∧
      strContains m (fmtUSDj (jmul wOverCap.annualIncome 30)) = true) ∧
    (∃ m ∈ (Rich.evaluateMutualOfOmaha wOverCap).flags, strContains m "25×" = true ∧
      strContains m (fmtUSDj (jmul wOverCap.annualIncome 25)) = true) ∧
    (∃ m ∈ (Rich.evaluateAmeritas wOverCap).flags, strContains m "30×" = true) ∧
    (∃ m ∈ (Rich.evaluateLafayetteLife wOverCap).flags, strContains m "35×" = true) ∧
    (∃ m ∈ (Rich.evaluateTransamerica wOverCap).flags, strContains m "25×" = true) ∧
    (∃ m ∈ (Rich.evaluateAmericanAmicable wOverCap).flags, strContains m "20×" = true) := by
  have h := C3_amended_income_cap_flag wOverCap
  exact ⟨h.1 (by decide), h.2.1 (by decide), h.2.2.1 (by decide),
    h.2.2.2.1 (by decide), h.2.2.2.2.1 (by decide), h.2.2.2.2.2 (by decide)⟩
